import Mathlib

/-!
Verification development for the decarb-tool dispatch-and-emissions engine.

The definitions below are a shallow embedding of the Python source:
  - utils/interp.py and the curve helpers of src/energy.py (Curve model),
  - src/equipment.py (Equipment, EquipmentScenario, EquipmentLibrary),
  - src/energy.py loads_to_site_energy (the six dispatch phases, with the
    default detail=True output columns),
  - src/emissions.py get_emissions_data and src/energy.py site_to_source.

Machine floats are embedded as exact rationals; decimal constants of the
source (1e-9, 0.001, 239.2, the 4-decimal rounding) are taken at their
decimal value.  Division by zero in the source produces IEEE inf/nan; the
theorems below carry hypotheses (positive COPs, positive conversion
factors) that keep every divisor nonzero, so the total rational division
never papers over a float divergence.  Python truthiness of optional
values (None, 0.0 and the empty string are falsy) is embedded explicitly.
-/

namespace Decarb

/-! ## Curve model -/

/-- A performance curve: a list of (x, y) sample pairs. -/
abbrev Curve := List (ℚ × ℚ)

/-- Insert a sample into a list keeping nondecreasing x order. -/
def insertByX (p : ℚ × ℚ) : Curve → Curve
  | [] => [p]
  | q :: qs => if p.1 ≤ q.1 then p :: q :: qs else q :: insertByX p qs

/-- Sort samples by x (insertion sort). -/
def sortByX : Curve → Curve
  | [] => []
  | p :: ps => insertByX p (sortByX ps)

/-- Piecewise-linear evaluation of an x-sorted sample list, clamped to the
boundary sample values outside the sample domain. -/
def interpSorted : Curve → ℚ → ℚ
  | [], _ => 0
  | [(_, y)], _ => y
  | (x1, y1) :: (x2, y2) :: rest, xi =>
    if xi ≤ x1 then y1
    else if xi ≤ x2 then y1 + (y2 - y1) * (xi - x1) / (x2 - x1)
    else interpSorted ((x2, y2) :: rest) xi

/-- Modelled from the spec: `interp_vector` is imported by src/energy.py and
src/equipment.py from utils.interp but is not defined under src/ (only the
older `interp1_zero` is).  Per the spec (section 4.1), the lookup takes a
monotonic or arbitrary-order, internally sorted set of (x, y) sample pairs,
returns linearly interpolated values, and clamps to the boundary value for
query points outside the sample domain (never extrapolates). -/
def interp_vector (pts : Curve) (xi : ℚ) : ℚ :=
  interpSorted (sortByX pts) xi

/-! ## Equipment data model (src/equipment.py) -/

structure Constraints where
  min_temp_C : ℚ
  max_temp_C : ℚ
  deriving Repr, DecidableEq

/-- Performance data for one mode.  The source keys curves by mode in a
dict; `constraints` is an optional dict with min/max outdoor temperature
(the equipment JSON supplies both keys when it supplies the dict). -/
structure Performance where
  cop_curve : Option Curve := none
  cap_curve : Option Curve := none
  plr_curve : Option Curve := none
  efficiency : Option ℚ := none
  constraints : Option Constraints := none
  deriving Repr, DecidableEq

structure Equipment where
  eq_id : String
  refrigerant : Option String := none
  refrigerant_weight_g : Option ℚ := none
  refrigerant_gwp : Option ℚ := none
  capacity_W : Option ℚ := none
  performance : List (String × Performance) := []
  deriving Repr, DecidableEq

def Equipment.performance_heating (e : Equipment) : Option Performance :=
  e.performance.lookup "heating"

def Equipment.performance_cooling (e : Equipment) : Option Performance :=
  e.performance.lookup "cooling"

inductive SizingMode where
  | peak_load_percentage_integer
  | peak_load_percentage_fractional
  | num_of_units
  deriving Repr, DecidableEq

structure EquipmentScenario where
  eq_scen_id : String
  eq_scen_name : String
  hr_wwhp : Option String := none
  awhp : Option String := none
  boiler : Option String := none
  chiller : Option String := none
  awhp_sizing_mode : Option SizingMode := none
  awhp_sizing_value : ℚ := 0
  awhp_use_cooling : Bool := false
  deriving Repr, DecidableEq

structure EquipmentLibrary where
  equipment : List Equipment := []
  equipment_scenarios : List EquipmentScenario := []
  deriving Repr, DecidableEq

/-- DotDict lookup: later additions overwrite earlier ones, so the last
record with a given id wins. -/
def EquipmentLibrary.get_equipment (lib : EquipmentLibrary) (id : String) :
    Option Equipment :=
  lib.equipment.reverse.find? (fun e => e.eq_id == id)

def EquipmentLibrary.get_scenario (lib : EquipmentLibrary) (id : String) :
    Option EquipmentScenario :=
  lib.equipment_scenarios.reverse.find? (fun s => s.eq_scen_id == id)

/-- Python truthiness of an optional string (None and the empty string are
falsy). -/
def optStrTruthy : Option String → Bool
  | some s => s != ""
  | none => false

/-- Python truthiness of an optional number (None and 0.0 are falsy). -/
def optRatTruthy : Option ℚ → Bool
  | some q => q != 0
  | none => false

/-- `x if x else "Unknown"` on an optional refrigerant name. -/
def refrigName : Option String → String
  | some s => if s = "" then "Unknown" else s
  | none => "Unknown"

/-! ## Curve helpers of src/energy.py -/

def _heat_recovery_plr_curve (e : Equipment) : Except String Curve :=
  if e.performance.isEmpty then .error "has no plr_curve"
  else
    match e.performance_heating with
    | none => .error "AttributeError: performance_heating is None"
    | some ph =>
      match ph.plr_curve with
      | some c => .ok c
      | none => .error "has no plr_curve"

/-- Zero the capacity outside the declared operating-temperature bounds.
The source subscripts the constraints dict unconditionally, so a missing
constraints dict raises. -/
def _capacity_constraints (e : Equipment) (heating : Bool) :
    Except String (ℚ → ℚ → ℚ) :=
  match (if heating then e.performance_heating else e.performance_cooling) with
  | none => .error "AttributeError: performance mode is None"
  | some p =>
    match p.constraints with
    | none => .error "TypeError: constraints is None"
    | some c =>
      .ok (fun t cap => if t > c.max_temp_C ∨ t < c.min_temp_C then 0 else cap)

def fallbackCapacity (e : Equipment) (msg : String) : Except String (ℚ → ℚ) :=
  match e.capacity_W with
  | some cw => .ok (fun _ => cw)
  | none => .error msg

def _per_unit_heating_capacity_W (e : Equipment) : Except String (ℚ → ℚ) := do
  let base ←
    (if e.performance.isEmpty then
      fallbackCapacity e "has no heating capacity info"
    else
      match e.performance_heating with
      | none => .error "AttributeError: performance_heating is None"
      | some ph =>
        match ph.cap_curve with
        | some c => .ok (fun t => interp_vector c t)
        | none => fallbackCapacity e "has no heating capacity info")
  let constrain ← _capacity_constraints e true
  .ok (fun t => constrain t (base t))

def _per_unit_cooling_capacity_W (e : Equipment) : Except String (ℚ → ℚ) := do
  let base ←
    (if e.performance.isEmpty then
      fallbackCapacity e "has no cooling capacity info"
    else
      match e.performance_cooling with
      | none => .error "AttributeError: performance_cooling is None"
      | some pc =>
        match pc.cap_curve with
        | some c => .ok (fun t => interp_vector c t)
        | none => fallbackCapacity e "has no cooling capacity info")
  let constrain ← _capacity_constraints e false
  .ok (fun t => constrain t (base t))

/-- Heating COP vs outdoor temperature; `none` models the all-NaN array the
source returns when no COP curve is available. -/
def _per_unit_heating_cop (e : Equipment) : Except String (Option (ℚ → ℚ)) :=
  if e.performance.isEmpty then .ok none
  else
    match e.performance_heating with
    | none => .error "AttributeError: performance_heating is None"
    | some ph =>
      match ph.cop_curve with
      | some c => .ok (some (fun t => interp_vector c t))
      | none => .ok none

def _per_unit_cooling_cop (e : Equipment) : Except String (Option (ℚ → ℚ)) :=
  if e.performance.isEmpty then .ok none
  else
    match e.performance_cooling with
    | none => .error "AttributeError: performance_cooling is None"
    | some pc =>
      match pc.cop_curve with
      | some c => .ok (some (fun t => interp_vector c t))
      | none => .ok none

def _constant_heating_efficiency (e : Equipment) : Except String (Option ℚ) :=
  if e.performance.isEmpty then .ok none
  else
    match e.performance_heating with
    | none => .error "AttributeError: performance_heating is None"
    | some ph => .ok ph.efficiency

def _constant_cooling_efficiency (e : Equipment) : Except String (Option ℚ) :=
  if e.performance.isEmpty then .ok none
  else
    match e.performance_cooling with
    | none => .error "AttributeError: performance_cooling is None"
    | some pc => .ok pc.efficiency

/-! ## Load series and dispatch output rows -/

structure LoadRow where
  t_out_C : ℚ
  heating_W : ℚ
  cooling_W : ℚ
  deriving Repr, DecidableEq

/-- One output row of loads_to_site_energy with the detail=True column set
(the default).  Columns the source pre-creates as NaN and only fills when a
phase runs are optional. -/
structure SiteRow where
  t_out_C : ℚ
  heating_W : ℚ
  cooling_W : ℚ
  elec_Wh : ℚ := 0
  gas_Wh : ℚ := 0
  hhw_W : ℚ
  chw_W : ℚ
  hhw_rem_W : ℚ
  chw_rem_W : ℚ
  hr_hhw_W : Option ℚ := none
  hr_chw_W : Option ℚ := none
  hr_cop_h : Option ℚ := none
  max_cap_h_hr_W : Option ℚ := none
  min_cap_h_hr_W : Option ℚ := none
  simult_h_hr_W : Option ℚ := none
  elec_hr_Wh : Option ℚ := none
  hr_wwhp_refrigerant : Option String := none
  hr_wwhp_refrigerant_weight_kg : Option ℚ := none
  hr_wwhp_refrigerant_gwp : Option ℚ := none
  awhp_num_h : Option ℚ := none
  awhp_cap_h_W : Option ℚ := none
  awhp_cop_h : Option ℚ := none
  awhp_hhw_W : Option ℚ := none
  elec_awhp_h_Wh : Option ℚ := none
  awhp_refrigerant : Option String := none
  awhp_refrigerant_weight_kg : Option ℚ := none
  awhp_refrigerant_gwp : Option ℚ := none
  boiler_eff : Option ℚ := none
  boiler_hhw_W : Option ℚ := none
  gas_boiler_Wh : Option ℚ := none
  res_hhw_W : Option ℚ := none
  elec_res_Wh : Option ℚ := none
  awhp_num_c : Option ℚ := none
  awhp_cap_c_W : Option ℚ := none
  awhp_cop_c : Option ℚ := none
  awhp_chw_W : Option ℚ := none
  elec_awhp_c_Wh : Option ℚ := none
  chiller_cop : Option ℚ := none
  chiller_chw_W : Option ℚ := none
  elec_chiller_Wh : Option ℚ := none
  chiller_refrigerant : Option String := none
  chiller_refrigerant_weight_kg : Option ℚ := none
  chiller_refrigerant_gwp : Option ℚ := none
  eq_scen_id : Option String := none
  eq_scen_name : Option String := none
  deriving Repr, DecidableEq

def initRow (lr : LoadRow) : SiteRow :=
  { t_out_C := lr.t_out_C, heating_W := lr.heating_W, cooling_W := lr.cooling_W,
    hhw_W := lr.heating_W, chw_W := lr.cooling_W,
    hhw_rem_W := lr.heating_W, chw_rem_W := lr.cooling_W }

/-- Maximum of a list (only used on nonempty lists). -/
def listMax (l : List ℚ) : ℚ := l.foldl max (l.head?.getD 0)

/-- Minimum of a list (only used on nonempty lists). -/
def listMin (l : List ℚ) : ℚ := l.foldl min (l.head?.getD 0)

/-! ## Rounding (`df.round(4)` on the chiller scalar path) -/

/-- Round half to even, as numpy and pandas round. -/
def rhe (q : ℚ) : ℤ :=
  if q - ⌊q⌋ < 1/2 then ⌊q⌋
  else if q - ⌊q⌋ > 1/2 then ⌊q⌋ + 1
  else if 2 ∣ ⌊q⌋ then ⌊q⌋ else ⌊q⌋ + 1

/-- Round to 4 decimal places, half to even. -/
def round4 (x : ℚ) : ℚ := (rhe (x * 10000) : ℚ) / 10000

def round4O (x : Option ℚ) : Option ℚ := x.map round4

/-- `df.round(4)` rounds every numeric column; string columns pass through. -/
def roundRow4 (r : SiteRow) : SiteRow :=
  { r with
    t_out_C := round4 r.t_out_C, heating_W := round4 r.heating_W,
    cooling_W := round4 r.cooling_W, elec_Wh := round4 r.elec_Wh,
    gas_Wh := round4 r.gas_Wh, hhw_W := round4 r.hhw_W,
    chw_W := round4 r.chw_W, hhw_rem_W := round4 r.hhw_rem_W,
    chw_rem_W := round4 r.chw_rem_W,
    hr_hhw_W := round4O r.hr_hhw_W, hr_chw_W := round4O r.hr_chw_W,
    hr_cop_h := round4O r.hr_cop_h,
    max_cap_h_hr_W := round4O r.max_cap_h_hr_W,
    min_cap_h_hr_W := round4O r.min_cap_h_hr_W,
    simult_h_hr_W := round4O r.simult_h_hr_W,
    elec_hr_Wh := round4O r.elec_hr_Wh,
    hr_wwhp_refrigerant_weight_kg := round4O r.hr_wwhp_refrigerant_weight_kg,
    hr_wwhp_refrigerant_gwp := round4O r.hr_wwhp_refrigerant_gwp,
    awhp_num_h := round4O r.awhp_num_h, awhp_cap_h_W := round4O r.awhp_cap_h_W,
    awhp_cop_h := round4O r.awhp_cop_h, awhp_hhw_W := round4O r.awhp_hhw_W,
    elec_awhp_h_Wh := round4O r.elec_awhp_h_Wh,
    awhp_refrigerant_weight_kg := round4O r.awhp_refrigerant_weight_kg,
    awhp_refrigerant_gwp := round4O r.awhp_refrigerant_gwp,
    boiler_eff := round4O r.boiler_eff, boiler_hhw_W := round4O r.boiler_hhw_W,
    gas_boiler_Wh := round4O r.gas_boiler_Wh, res_hhw_W := round4O r.res_hhw_W,
    elec_res_Wh := round4O r.elec_res_Wh, awhp_num_c := round4O r.awhp_num_c,
    awhp_cap_c_W := round4O r.awhp_cap_c_W, awhp_cop_c := round4O r.awhp_cop_c,
    awhp_chw_W := round4O r.awhp_chw_W,
    elec_awhp_c_Wh := round4O r.elec_awhp_c_Wh,
    chiller_cop := round4O r.chiller_cop,
    chiller_chw_W := round4O r.chiller_chw_W,
    elec_chiller_Wh := round4O r.elec_chiller_Wh,
    chiller_refrigerant_weight_kg := round4O r.chiller_refrigerant_weight_kg,
    chiller_refrigerant_gwp := round4O r.chiller_refrigerant_gwp }

/-! ## The six dispatch phases of loads_to_site_energy -/

/-- Per-hour row update of phase 1 (HR WWHP). -/
def phase1Row (hr_wwhp : Equipment) (plr : Curve) (r : SiteRow) : SiteRow :=
  let copMax := listMax (plr.map Prod.snd)
  let least_waste := 1 - 1 / copMax
  let max_cap_h := 1 * listMax (plr.map Prod.fst)
  let min_cap_h := listMin (plr.map Prod.fst)
  let wkg :=
    if optRatTruthy hr_wwhp.refrigerant_weight_g then
      hr_wwhp.refrigerant_weight_g.getD 0 * 0.001 / 8760
    else 0
  let gkg :=
    if optRatTruthy hr_wwhp.refrigerant_gwp then
      hr_wwhp.refrigerant_gwp.getD 0 * wkg
    else 0
  let simult := min r.hhw_rem_W (r.chw_rem_W / least_waste)
  let hr_hhw := if min max_cap_h simult > min_cap_h then min max_cap_h simult else 0
  let hr_cop := interp_vector plr hr_hhw
  let hr_chw := if hr_cop > 0 then hr_hhw * (1 - 1 / hr_cop) else 0
  let elec_hr := if hr_cop > 0 then hr_hhw / hr_cop else 0
  { r with
    max_cap_h_hr_W := some max_cap_h, min_cap_h_hr_W := some min_cap_h,
    simult_h_hr_W := some simult, hr_hhw_W := some hr_hhw,
    hr_chw_W := some hr_chw, hr_cop_h := some hr_cop,
    elec_hr_Wh := some elec_hr, elec_Wh := r.elec_Wh + elec_hr,
    hhw_rem_W := r.hhw_rem_W - hr_hhw,
    chw_rem_W := r.chw_rem_W - hr_chw,
    hr_wwhp_refrigerant := some (refrigName hr_wwhp.refrigerant),
    hr_wwhp_refrigerant_weight_kg := some wkg,
    hr_wwhp_refrigerant_gwp := some gkg }

/-- Phase 1: heat-recovery water-to-water heat pump.  The descending cap
sort and the derived cap_c/cop_c columns of the Python frame feed nothing
but the max-COP conversion factor and the cap extrema used in phase1Row,
and interp_vector re-sorts its sample input, so they are not
re-modelled. -/
def phase1 (library : EquipmentLibrary) (scen : EquipmentScenario)
    (rows : List SiteRow) : Except String (List SiteRow) :=
  if optStrTruthy scen.hr_wwhp = false then .ok rows
  else
    match library.get_equipment (scen.hr_wwhp.getD "") with
    | none => .error "KeyError: hr_wwhp equipment not found"
    | some hr_wwhp => do
      let plr ← _heat_recovery_plr_curve hr_wwhp
      if plr.isEmpty then .error "HR WWHP lacks a PLR curve"
      else .ok (rows.map (phase1Row hr_wwhp plr))

/-- Per-hour row update of phase 2 (AWHP heating). -/
def phase2Row (awhp_h : Equipment) (capF copF : ℚ → ℚ) (num : ℚ)
    (r : SiteRow) : SiteRow :=
  let wkg :=
    if optRatTruthy awhp_h.refrigerant_weight_g then
      awhp_h.refrigerant_weight_g.getD 0 * 0.001 * num / 8760
    else 0
  let gkg :=
    if optRatTruthy awhp_h.refrigerant_gwp then
      awhp_h.refrigerant_gwp.getD 0 * wkg / 1000
    else 0
  let cap_tot := capF r.t_out_C * num
  let served := min r.hhw_rem_W cap_tot
  let elec := served / copF r.t_out_C
  { r with
    awhp_hhw_W := some served, awhp_cap_h_W := some cap_tot,
    awhp_cop_h := some (copF r.t_out_C),
    elec_awhp_h_Wh := some elec, elec_Wh := r.elec_Wh + elec,
    hhw_rem_W := r.hhw_rem_W - served, awhp_num_h := some num,
    awhp_refrigerant := some (refrigName awhp_h.refrigerant),
    awhp_refrigerant_weight_kg := some wkg,
    awhp_refrigerant_gwp := some gkg }

/-- Phase 2: air-to-water heat pump, heating.  Returns the unit count as
well, because phase 5 reads the very same Python variable. -/
def phase2 (library : EquipmentLibrary) (scen : EquipmentScenario)
    (rows : List SiteRow) : Except String (List SiteRow × ℚ) :=
  if optStrTruthy scen.awhp = false then .ok (rows, 0)
  else
    match library.get_equipment (scen.awhp.getD "") with
    | none => .error "KeyError: awhp equipment not found"
    | some awhp_h => do
      let capF ← _per_unit_heating_capacity_W awhp_h
      let copOpt ← _per_unit_heating_cop awhp_h
      match copOpt with
      | none => .error "AWHP heating lacks a COP curve"
      | some copF =>
        match scen.awhp_sizing_mode with
        | none => .error "requires awhp_sizing_mode and awhp_sizing_value"
        | some mode => do
          let cap_ref ←
            (if ¬ awhp_h.performance.isEmpty ∧ ((awhp_h.performance_heating).bind (fun p => p.cap_curve)).isSome then
              .ok (interp_vector (((awhp_h.performance_heating).bind (fun p => p.cap_curve)).getD []) 0)
            else if optRatTruthy awhp_h.capacity_W then .ok (awhp_h.capacity_W.getD 0)
            else .error "AWHP lacks a valid capacity reference")
          let v := scen.awhp_sizing_value
          let num ←
            (match mode with
            | .peak_load_percentage_integer =>
              if v < 0 ∨ 1 < v then
                .error "requires awhp_sizing_value between 0 and 1"
              else
                .ok ((max 1 ⌈listMax (rows.map (fun r => r.hhw_W)) * v / cap_ref⌉ : ℤ) : ℚ)
            | .peak_load_percentage_fractional =>
              if v < 0 ∨ 1 < v then
                .error "requires awhp_sizing_value between 0 and 1"
              else
                .ok (listMax (rows.map (fun r => r.hhw_W)) * v / cap_ref)
            | .num_of_units =>
              if v < 0 then
                .error "requires awhp_sizing_value to be non-negative"
              else .ok ((max 1 ⌈v⌉ : ℤ) : ℚ))
          let num := max num 0
          .ok (rows.map (phase2Row awhp_h capF copF num), num)

/-- Per-hour row update of phase 3 (boiler). -/
def phase3Row (eff : ℚ) (r : SiteRow) : SiteRow :=
  { r with
    boiler_hhw_W := some r.hhw_rem_W,
    gas_boiler_Wh := some (r.hhw_rem_W / eff),
    boiler_eff := some eff, gas_Wh := r.gas_Wh + r.hhw_rem_W / eff,
    hhw_rem_W := 0 }

/-- Phase 3: boiler. -/
def phase3 (library : EquipmentLibrary) (scen : EquipmentScenario)
    (rows : List SiteRow) : Except String (List SiteRow) :=
  if optStrTruthy scen.boiler = false then .ok rows
  else
    match library.get_equipment (scen.boiler.getD "") with
    | none => .error "KeyError: boiler equipment not found"
    | some blr => do
      let effO ← _constant_heating_efficiency blr
      match effO with
      | none => .error "Boiler requires a positive efficiency"
      | some eff =>
        if eff ≤ 0 then .error "Boiler requires a positive efficiency"
        else .ok (rows.map (phase3Row eff))

/-- Per-hour row update of phase 4 (electric resistance). -/
def phase4Row (r : SiteRow) : SiteRow :=
  { r with
    res_hhw_W := some r.hhw_rem_W, elec_res_Wh := some r.hhw_rem_W,
    elec_Wh := r.elec_Wh + r.hhw_rem_W, hhw_rem_W := 0 }

/-- Phase 4: electric resistance, fired only when some hour still has more
than 1e-9 W of heating remaining. -/
def phase4 (rows : List SiteRow) : List SiteRow :=
  if rows.any (fun r => decide ((1e-9 : ℚ) < r.hhw_rem_W)) then
    rows.map phase4Row
  else rows

/-- Per-hour row update of phase 5 (AWHP cooling), masked to hours with
zero AWHP heating output. -/
def phase5Row (capF copF : ℚ → ℚ) (num : ℚ) (r : SiteRow) : SiteRow :=
  let cap_tot := capF r.t_out_C * num
  let served :=
    if r.awhp_hhw_W == some 0 then min r.chw_rem_W cap_tot else 0
  let elec := served / copF r.t_out_C
  { r with
    awhp_chw_W := some served, awhp_cap_c_W := some cap_tot,
    awhp_cop_c := some (copF r.t_out_C),
    elec_awhp_c_Wh := some elec, elec_Wh := r.elec_Wh + elec,
    chw_rem_W := r.chw_rem_W - served, awhp_num_c := some num }

/-- Phase 5: air-to-water heat pump, cooling. -/
def phase5 (library : EquipmentLibrary) (scen : EquipmentScenario)
    (rows : List SiteRow) (num : ℚ) : Except String (List SiteRow) :=
  if ¬ (optStrTruthy scen.awhp ∧ scen.awhp_use_cooling) then .ok rows
  else
    match library.get_equipment (scen.awhp.getD "") with
    | none => .error "KeyError: awhp equipment not found"
    | some awhp_c => do
      let capF ← _per_unit_cooling_capacity_W awhp_c
      let copOpt ← _per_unit_cooling_cop awhp_c
      match copOpt with
      | none => .error "AWHP cooling lacks a COP curve"
      | some copF => .ok (rows.map (phase5Row capF copF num))

/-- Per-hour row update of the phase-6 scalar-COP path. -/
def phase6ScalarRow (chl : Equipment) (chiller_cop : ℚ) (r : SiteRow) :
    SiteRow :=
  let wkg :=
    if optRatTruthy chl.refrigerant_weight_g then
      chl.refrigerant_weight_g.getD 0 * 0.001 / 8760
    else 0
  let gkg :=
    if optRatTruthy chl.refrigerant_gwp then
      chl.refrigerant_gwp.getD 0 * wkg
    else 0
  let served := r.chw_rem_W
  let elec := served / chiller_cop
  { r with
    chiller_chw_W := some served, elec_chiller_Wh := some elec,
    chiller_cop := some chiller_cop,
    elec_Wh := r.elec_Wh + elec, chw_rem_W := 0,
    chiller_refrigerant := some (refrigName chl.refrigerant),
    chiller_refrigerant_weight_kg := some wkg,
    chiller_refrigerant_gwp := some gkg }

/-- Per-hour row update of the phase-6 COP-curve path. -/
def phase6CurveRow (copF : ℚ → ℚ) (r : SiteRow) : SiteRow :=
  let served := r.chw_rem_W
  let elec := served / copF r.t_out_C
  { r with
    chiller_chw_W := some served, elec_chiller_Wh := some elec,
    chiller_cop := some (copF r.t_out_C),
    elec_Wh := r.elec_Wh + elec, chw_rem_W := 0 }

/-- The phase-6 scalar-COP path: serve the whole cooling remainder at a
fixed COP, record the refrigerant columns of the Python local `chl`
(raising when it was never assigned), and apply `df.round(4)`. -/
def phase6Scalar (rows : List SiteRow) (chiller_cop : ℚ)
    (chlVar : Option Equipment) :
    Except String (List SiteRow × Option Equipment × Bool) :=
  match chlVar with
  | none => .error "UnboundLocalError: chl referenced before assignment"
  | some chl =>
    .ok ((rows.map (phase6ScalarRow chl chiller_cop)).map roundRow4,
      some chl, false)

/-- The phase-6 COP-curve check: with a curve the source serves the
remainder at the hourly curve COP and takes its early `return df[cols]`;
without one it falls back to the scalar path at COP 5 with the configured
chiller. -/
def phase6Curve (rows : List SiteRow) (chl : Equipment) :
    Except String (List SiteRow × Option Equipment × Bool) := do
  let copOpt ← _per_unit_cooling_cop chl
  match copOpt with
  | some copF => .ok (rows.map (phase6CurveRow copF), some chl, true)
  | none => phase6Scalar rows 5 (some chl)

/-- Phase 6: chiller fallback.  `chl0` is the Python local variable `chl`
as left behind by earlier scenario iterations of the same call; the scalar
path dereferences it even when the current scenario has no chiller. -/
def phase6 (library : EquipmentLibrary) (scen : EquipmentScenario)
    (rows : List SiteRow) (chl0 : Option Equipment) :
    Except String (List SiteRow × Option Equipment × Bool) :=
  if ¬ ((1e-9 : ℚ) < (rows.map (fun r => r.chw_rem_W)).sum) then
    .ok (rows, chl0, false)
  else if optStrTruthy scen.chiller then
    match library.get_equipment (scen.chiller.getD "") with
    | none => .error "KeyError: chiller equipment not found"
    | some chl => do
      let effO ← _constant_cooling_efficiency chl
      match effO with
      | some eff =>
        if 0 < eff then phase6Scalar rows eff (some chl)
        else phase6Curve rows chl
      | none => phase6Curve rows chl
  else phase6Scalar rows 5 chl0

/-- The scenario tag columns added after _finalize_columns. -/
def tagRow (id name : String) (r : SiteRow) : SiteRow :=
  { r with eq_scen_id := some id, eq_scen_name := some name }

/-- One scenario iteration of loads_to_site_energy (detail=True). -/
def dispatch_scenario (load : List LoadRow) (library : EquipmentLibrary)
    (scenario_id : String) (chl0 : Option Equipment) :
    Except String (List SiteRow × Option Equipment × Bool) :=
  match library.get_scenario scenario_id with
  | none => .error "KeyError: scenario not found"
  | some scen => do
    let rows1 ← phase1 library scen (load.map initRow)
    let p2 ← phase2 library scen rows1
    let rows3 ← phase3 library scen p2.1
    let rows5 ← phase5 library scen (phase4 rows3) p2.2
    let p6 ← phase6 library scen rows5 chl0
    if p6.2.2 then .ok (p6.1, p6.2.1, true)
    else .ok (p6.1.map (tagRow scenario_id scen.eq_scen_name), p6.2.1, false)

/-- The scenario loop, threading the Python local `chl` across iterations
and honouring the early `return` of the chiller COP-curve branch. -/
def dispatch_go (load : List LoadRow) (library : EquipmentLibrary) :
    List String → Option Equipment → List SiteRow →
    Except String (List SiteRow)
  | [], _, acc => .ok acc
  | id :: rest, chl, acc =>
    match dispatch_scenario load library id chl with
    | .error e => .error e
    | .ok (rows, chlNew, early) =>
      if early then .ok rows
      else dispatch_go load library rest chlNew (acc ++ rows)

/-- loads_to_site_energy with detail=True (the default).  An empty
scenario list makes the final pd.concat raise. -/
def loads_to_site_energy (load : List LoadRow) (library : EquipmentLibrary)
    (scenario_ids : List String) : Except String (List SiteRow) :=
  if scenario_ids.isEmpty then .error "ValueError: No objects to concatenate"
  else dispatch_go load library scenario_ids none []

/-! ## Derived notions used by the verification -/

def exceptIsOk {ε α : Type} : Except ε α → Bool
  | .ok _ => true
  | .error _ => false

/-- True when a single-scenario dispatch succeeds without the chiller
COP-curve early return. -/
def dispatchOkNotEarly (load : List LoadRow) (lib : EquipmentLibrary)
    (id : String) : Bool :=
  match dispatch_scenario load lib id none with
  | .ok (_, _, false) => true
  | _ => false

/-- The rows a single-scenario dispatch produces (empty on error). -/
def rowsOf (load : List LoadRow) (lib : EquipmentLibrary) (id : String) :
    List SiteRow :=
  match dispatch_scenario load lib id none with
  | .ok (r, _, _) => r
  | .error _ => []

/-- Total heating load served across the four heating technologies. -/
def servedH (r : SiteRow) : ℚ :=
  r.hr_hhw_W.getD 0 + r.awhp_hhw_W.getD 0 + r.boiler_hhw_W.getD 0 +
    r.res_hhw_W.getD 0

/-- Total cooling load served across the three cooling technologies. -/
def servedC (r : SiteRow) : ℚ :=
  r.hr_chw_W.getD 0 + r.awhp_chw_W.getD 0 + r.chiller_chw_W.getD 0

/-- Physical sanity of an equipment record: its capacity samples and fixed
capacity are nonnegative. -/
def EquipCapNonneg (e : Equipment) : Prop :=
  (∀ p ∈ (e.performance_heating.bind (fun ph => ph.cap_curve)).getD [], 0 ≤ p.2) ∧
  (∀ p ∈ (e.performance_cooling.bind (fun pc => pc.cap_curve)).getD [], 0 ≤ p.2) ∧
  0 ≤ e.capacity_W.getD 0

/-- The PLR curve the dispatch would use for the scenario, if any. -/
def hrPlrOf (lib : EquipmentLibrary) (scen : EquipmentScenario) : Curve :=
  match lib.get_equipment (scen.hr_wwhp.getD "") with
  | some hr =>
    match _heat_recovery_plr_curve hr with
    | .ok plr => plr
    | .error _ => []
  | none => []

/-- Physical sanity of the equipment a scenario dispatches: nonnegative
capacity data for its AWHP and, for its heat-recovery unit, nonnegative
part-load capacities with heating COPs above one. -/
def ScenDataOk (lib : EquipmentLibrary) (scen : EquipmentScenario) : Prop :=
  (∀ p ∈ hrPlrOf lib scen, 0 ≤ p.1 ∧ 1 < p.2) ∧
  (lib.get_equipment (scen.awhp.getD "")).elim True EquipCapNonneg

/-- Exact conservation invariant of a dispatch row: both remainders are
nonnegative and served-plus-remainder equals the original demand, for
heating and for cooling. -/
@[reducible] def Inv (r : SiteRow) : Prop :=
  0 ≤ r.hhw_rem_W ∧ 0 ≤ r.chw_rem_W ∧
  servedH r + r.hhw_rem_W = r.hhw_W ∧ servedC r + r.chw_rem_W = r.chw_W

/-! ## Emission rate model and emissions engine -/

/-- One emission scenario configuration (src/metadata.py defaults show the
field set; the class itself lives outside src/). -/
structure EmissionScenario where
  em_scen_id : String
  grid_scenario : String := ""
  gea_grid_region : String := ""
  time_zone : String := ""
  emission_type : String
  shortrun_weighting : ℚ
  annual_refrig_leakage_percent : ℚ
  year : ℤ
  deriving Repr, DecidableEq

/-- One row of the raw grid emission-rate source (the parquet input of
get_emissions_data), with its timestamp split into month/day/hour. -/
structure RawEmissionRow where
  emission_scenario : String
  gea_grid_region : String
  year : ℤ
  month : ℕ
  day : ℕ
  hour : ℕ
  lrmer_co2e_c : ℚ
  lrmer_co2e_p : ℚ
  srmer_co2e_c : ℚ
  srmer_co2e_p : ℚ
  lrmer_co2e : ℚ
  srmer_co2e : ℚ
  deriving Repr, DecidableEq

/-- One row of the canonical StandardEmissions frame built by
get_emissions_data: exactly the four canonical rate slots. -/
structure EmRow where
  year : ℤ
  month : ℕ
  hour : ℕ
  lrmer_co2e_c : ℚ
  lrmer_co2e_p : ℚ
  srmer_co2e_c : ℚ
  srmer_co2e_p : ℚ
  deriving Repr, DecidableEq

/-- src/emissions.py get_emissions_data: filter the raw table to the
scenario, region and requested year, then fill the canonical _c/_p slots:
as-is for Combustion only, and both slots from the full life-cycle columns
for Includes pre-combustion.  (The EmissionsSettings adapter object is not
under src/; per the spec the slice is by grid scenario, region and the
scenario year.)  StandardEmissions validation only sorts and type-checks,
which the grouping downstream is insensitive to. -/
def get_emissions_data (settings : EmissionScenario)
    (table : List RawEmissionRow) : Except String (List EmRow) :=
  let df := table.filter (fun r =>
    r.emission_scenario == settings.grid_scenario &&
    r.gea_grid_region == settings.gea_grid_region &&
    r.year == settings.year)
  if df.isEmpty then .error "No emissions data found"
  else if settings.emission_type = "Combustion only" then
    .ok (df.map (fun r =>
      { year := r.year, month := r.month, hour := r.hour,
        lrmer_co2e_c := r.lrmer_co2e_c, lrmer_co2e_p := r.lrmer_co2e_p,
        srmer_co2e_c := r.srmer_co2e_c, srmer_co2e_p := r.srmer_co2e_p }))
  else if settings.emission_type = "Includes pre-combustion" then
    .ok (df.map (fun r =>
      { year := r.year, month := r.month, hour := r.hour,
        lrmer_co2e_c := r.lrmer_co2e, lrmer_co2e_p := r.lrmer_co2e,
        srmer_co2e_c := r.srmer_co2e, srmer_co2e_p := r.srmer_co2e }))
  else .error "Invalid emissions_type"

/-- The hourly blended electricity emission rate computed by site_to_source
(src/energy.py lines 593-612) on one canonical emissions row. -/
def blended_rate (emission_type : String) (w : ℚ) (r : EmRow) :
    Except String ℚ :=
  if emission_type = "Combustion only" then
    .ok (r.lrmer_co2e_c * (1 - w) + r.srmer_co2e_c * w)
  else if emission_type = "Includes pre-combustion" then
    .ok ((r.lrmer_co2e_c + r.lrmer_co2e_p) * (1 - w) +
         (r.srmer_co2e_c + r.srmer_co2e_p) * w)
  else .error "Invalid emissions_type"

/-- Columns of the StandardEmissions frame at the groupby call of
site_to_source: the canonical schema built by get_emissions_data plus the
month, hour, shortrun_weighting and blended-rate columns added before the
groupby. -/
def standard_emissions_frame_columns : List String :=
  ["emission_scenario", "gea_grid_region", "time_zone", "emission_type",
   "year", "lrmer_co2e_c", "lrmer_co2e_p", "srmer_co2e_c", "srmer_co2e_p",
   "month", "hour", "shortrun_weighting",
   "elec_emissions_rate_gCO2e_per_kWh"]

/-- The column list site_to_source selects on the grouped frame
(src/energy.py lines 614-629). -/
def site_groupby_columns : List String :=
  ["elec_emissions_rate_gCO2e_per_kWh", "lrmer_co2e_c", "lrmer_co2e_p",
   "lrmer_co2e", "srmer_co2e_c", "srmer_co2e_p", "srmer_co2e",
   "shortrun_weighting"]

/-- One row of the dispatch output as consumed by site_to_source: the index
timestamp split into month/day/hour, site energy, and the recorded
refrigerant-leakage-potential columns (absent columns and NaN cells both
contribute zero to the pandas skipna row sum). -/
structure SiteEnergyRow where
  month : ℕ
  day : ℕ
  hour : ℕ
  elec_Wh : ℚ
  gas_Wh : ℚ
  hr_wwhp_refrigerant_gwp : Option ℚ := none
  awhp_refrigerant_gwp : Option ℚ := none
  chiller_refrigerant_gwp : Option ℚ := none
  deriving Repr, DecidableEq

structure EmissionsOutRow where
  month : ℕ
  day : ℕ
  hour : ℕ
  year : ℤ
  elec_Wh : ℚ
  gas_Wh : ℚ
  elec_emissions_rate : Option ℚ
  elec_emissions : Option ℚ
  gas_emissions : ℚ
  total_refrig_gwp_kg : ℚ
  total_refrig_emissions : ℚ
  total_emissions : Option ℚ
  em_scen_id : String
  deriving Repr, DecidableEq

/-- One emission-scenario iteration of site_to_source.  After the blended
rate is written, the source selects the groupby columns
`site_groupby_columns` on the canonical frame, whose columns are
`standard_emissions_frame_columns`; pandas raises KeyError when a selected
column does not exist.  The guarded branch carries out the month-hour mean,
the left join and the emission formulas of the remainder of the loop
body. -/
def site_to_source_scenario (df_loads : List SiteEnergyRow)
    (em_scen : EmissionScenario) (table : List RawEmissionRow)
    (gas_emissions_rate : ℚ) : Except String (List EmissionsOutRow) := do
  let emissions_data ← get_emissions_data em_scen table
  let w := em_scen.shortrun_weighting
  let rated ← emissions_data.mapM (fun r =>
    (blended_rate em_scen.emission_type w r).map (fun q => (r, q)))
  if site_groupby_columns.all (fun c => standard_emissions_frame_columns.contains c) then
    .ok (df_loads.map (fun lr =>
      let grp := rated.filter (fun rq => rq.1.month == lr.month && rq.1.hour == lr.hour)
      let rate : Option ℚ :=
        if grp.isEmpty then none
        else some ((grp.map (fun rq => rq.2)).sum / grp.length)
      let elec_em := rate.map (fun ra => lr.elec_Wh * ra / 1000000)
      let gas_em := gas_emissions_rate * lr.gas_Wh / 1000000
      let refg := lr.hr_wwhp_refrigerant_gwp.getD 0 +
        lr.awhp_refrigerant_gwp.getD 0 + lr.chiller_refrigerant_gwp.getD 0
      let refr_em := refg * em_scen.annual_refrig_leakage_percent
      { month := lr.month, day := lr.day, hour := lr.hour,
        year := em_scen.year, elec_Wh := lr.elec_Wh, gas_Wh := lr.gas_Wh,
        elec_emissions_rate := rate, elec_emissions := elec_em,
        gas_emissions := gas_em, total_refrig_gwp_kg := refg,
        total_refrig_emissions := refr_em,
        total_emissions := elec_em.map (fun e => e + gas_em + refr_em),
        em_scen_id := em_scen.em_scen_id }))
  else .error "KeyError: Columns not found: lrmer_co2e, srmer_co2e"

/-- src/energy.py site_to_source: iterate the configured emission
scenarios (looking each id up in the metadata list as the dict-like
Metadata interface does) and concatenate; an empty scenario list makes the
final pd.concat raise. -/
def site_to_source (df_loads : List SiteEnergyRow)
    (metadata : List EmissionScenario) (table : List RawEmissionRow)
    (gas_emissions_rate : ℚ := 239.2) : Except String (List EmissionsOutRow) :=
  if metadata.isEmpty then .error "ValueError: No objects to concatenate"
  else do
    let pieces ← (metadata.map (fun s => s.em_scen_id)).mapM
      (fun id : String =>
        match metadata.find? (fun s => s.em_scen_id == id) with
        | none =>
          (Except.error "KeyError: EmissionScenario not found" :
            Except String (List EmissionsOutRow))
        | some scen =>
          site_to_source_scenario df_loads scen table gas_emissions_rate)
    .ok pieces.flatten

/-! ## Concrete fixtures (shared by witnesses and counterexamples) -/

def boilerEq : Equipment :=
  { eq_id := "blr", performance := [("heating", { efficiency := some 0.85 })] }

def chillerNoDataEq : Equipment := { eq_id := "chl_nodata" }

def chillerRefEq : Equipment :=
  { eq_id := "chl_ref", refrigerant := some "R134a",
    refrigerant_weight_g := some 876, refrigerant_gwp := some 10 }

def chillerCurveEq : Equipment :=
  { eq_id := "chl_curve",
    performance := [("cooling", { cop_curve := some [(0, 6), (35, 4)] })] }

def hrEq : Equipment :=
  { eq_id := "hr", refrigerant := some "R134a",
    refrigerant_weight_g := some 876, refrigerant_gwp := some 10,
    performance := [("heating", { plr_curve := some [(2000, 3), (5000, 4)] })] }

def awhpEq : Equipment :=
  { eq_id := "hp",
    refrigerant := some "R410A", refrigerant_weight_g := some 876,
    refrigerant_gwp := some 10,
    performance :=
      [("heating", { cap_curve := some [(-10, 6000), (10, 10000)],
                     cop_curve := some [(-10, 2), (10, 4)],
                     constraints := some { min_temp_C := -15, max_temp_C := 30 } }),
       ("cooling", { cap_curve := some [(0, 9000), (35, 7000)],
                     cop_curve := some [(0, 5), (35, 3)],
                     constraints := some { min_temp_C := -100, max_temp_C := 100 } })] }

def scenEmpty : EquipmentScenario :=
  { eq_scen_id := "s_empty", eq_scen_name := "nothing configured" }

def scenBoiler : EquipmentScenario :=
  { eq_scen_id := "s_boiler", eq_scen_name := "boiler only",
    boiler := some "blr" }

def scenChillerNoData : EquipmentScenario :=
  { eq_scen_id := "s_chl_nodata", eq_scen_name := "chiller without data",
    chiller := some "chl_nodata" }

def scenChillerCurve : EquipmentScenario :=
  { eq_scen_id := "s_chl_curve", eq_scen_name := "chiller with COP curve",
    chiller := some "chl_curve" }

def scenAwhp0 : EquipmentScenario :=
  { eq_scen_id := "s_awhp0", eq_scen_name := "awhp zero units",
    awhp := some "hp", awhp_sizing_mode := some .num_of_units,
    awhp_sizing_value := 0 }

def scenFull : EquipmentScenario :=
  { eq_scen_id := "s_full", eq_scen_name := "hr awhp chiller",
    hr_wwhp := some "hr", awhp := some "hp",
    awhp_sizing_mode := some .num_of_units, awhp_sizing_value := 1,
    chiller := some "chl_ref" }

def demoLib : EquipmentLibrary :=
  { equipment := [boilerEq, chillerNoDataEq, chillerRefEq, chillerCurveEq,
      hrEq, awhpEq],
    equipment_scenarios := [scenEmpty, scenBoiler, scenChillerNoData,
      scenChillerCurve, scenAwhp0, scenFull] }

def loadHeat : List LoadRow := [{ t_out_C := 5, heating_W := 10000, cooling_W := 0 }]

def loadCool : List LoadRow := [{ t_out_C := 20, heating_W := 0, cooling_W := 10 }]

def loadBoth : List LoadRow :=
  [{ t_out_C := 5, heating_W := 10000, cooling_W := 4000 }]

/-! ## Interpolation lemmas -/

theorem mem_insertByX (p q : ℚ × ℚ) (l : Curve) :
    q ∈ insertByX p l ↔ q = p ∨ q ∈ l := by
  induction l with
  | nil => simp [insertByX]
  | cons a t ih =>
    by_cases h : p.1 ≤ a.1
    · simp [insertByX, h]
    · simp only [insertByX, if_neg h, List.mem_cons, ih]
      tauto

theorem mem_sortByX (q : ℚ × ℚ) (l : Curve) : q ∈ sortByX l ↔ q ∈ l := by
  induction l with
  | nil => simp [sortByX]
  | cons a t ih => simp [sortByX, mem_insertByX, ih]

theorem pairwise_insertByX (p : ℚ × ℚ) (l : Curve)
    (h : l.Pairwise (fun a b => a.1 ≤ b.1)) :
    (insertByX p l).Pairwise (fun a b => a.1 ≤ b.1) := by
  induction l with
  | nil => simp [insertByX]
  | cons a t ih =>
    rcases List.pairwise_cons.mp h with ⟨ha, ht⟩
    by_cases hpa : p.1 ≤ a.1
    · rw [insertByX, if_pos hpa]
      refine List.pairwise_cons.mpr ⟨?_, h⟩
      intro b hb
      rcases List.mem_cons.mp hb with hb | hb
      · exact hb ▸ hpa
      · exact le_trans hpa (ha b hb)
    · rw [insertByX, if_neg hpa]
      refine List.pairwise_cons.mpr ⟨?_, ih ht⟩
      intro b hb
      rcases (mem_insertByX p b t).mp hb with hb | hb
      · exact hb ▸ le_of_lt (lt_of_not_le hpa)
      · exact ha b hb

theorem pairwise_sortByX (l : Curve) :
    (sortByX l).Pairwise (fun a b => a.1 ≤ b.1) := by
  induction l with
  | nil => simp [sortByX]
  | cons a t ih => exact pairwise_insertByX a (sortByX t) ih

theorem sortByX_ne_nil (l : Curve) (h : l ≠ []) : sortByX l ≠ [] := by
  intro hs
  rcases List.exists_mem_of_ne_nil l h with ⟨p, hp⟩
  have := (mem_sortByX p l).mpr hp
  rw [hs] at this
  exact absurd this (List.not_mem_nil p)

theorem interpSorted_head (p : ℚ × ℚ) (l : Curve) (xi : ℚ) (h : xi ≤ p.1) :
    interpSorted (p :: l) xi = p.2 := by
  cases l with
  | nil => rfl
  | cons q t =>
    show (if xi ≤ p.1 then p.2 else _) = p.2
    rw [if_pos h]

theorem interpSorted_last (l : Curve) (hi : ℚ × ℚ) (xi : ℚ)
    (hs : l.Pairwise (fun a b => a.1 ≤ b.1)) (hmem : hi ∈ l)
    (hmax : ∀ p ∈ l, p ≠ hi → p.1 < hi.1) (hxi : hi.1 ≤ xi) :
    interpSorted l xi = hi.2 := by
  induction l with
  | nil => exact absurd hmem (List.not_mem_nil hi)
  | cons a t ih =>
    rcases List.pairwise_cons.mp hs with ⟨hale, ht⟩
    cases t with
    | nil =>
      have : hi = a := by simpa using hmem
      subst this
      rfl
    | cons b t2 =>
      by_cases hx1 : xi ≤ a.1
      · have hax : a = hi := by
          by_contra hne
          have := hmax a (List.mem_cons_self a _) hne
          exact absurd (le_trans hxi hx1) (not_le.mpr this)
        subst hax
        exact interpSorted_head a (b :: t2) xi hx1
      · have hbmin : ∀ p ∈ b :: t2, b.1 ≤ p.1 := by
          intro p hp
          rcases List.mem_cons.mp hp with hp | hp
          · exact hp ▸ le_refl _
          · exact (List.pairwise_cons.mp ht).1 p hp
        have hhibt : hi ∈ b :: t2 := by
          rcases List.mem_cons.mp hmem with hh | hh
          · by_cases hba : b = hi
            · exact hba ▸ List.mem_cons_self b t2
            · exfalso
              have hblt : b.1 < hi.1 :=
                hmax b (List.mem_cons_of_mem a (List.mem_cons_self b t2)) hba
              have hab2 : a.1 ≤ b.1 := hale b (List.mem_cons_self b t2)
              rw [hh] at hblt
              exact absurd hblt (not_lt.mpr hab2)
          · exact hh
        have hble : b.1 ≤ hi.1 := hbmin hi hhibt
        by_cases hx2 : xi ≤ b.1
        · have hxib : xi = b.1 := le_antisymm hx2 (le_trans hble hxi)
          have hbhi : b = hi := by
            by_contra hne
            have hlt2 := hmax b (List.mem_cons_of_mem a (List.mem_cons_self b t2)) hne
            have : hi.1 ≤ b.1 := le_trans hxi hx2
            exact absurd hlt2 (not_lt.mpr this)
          have hlt : a.1 < b.1 := lt_of_lt_of_le (lt_of_not_le hx1) hx2
          have hne : b.1 - a.1 ≠ 0 := sub_ne_zero.mpr (ne_of_gt hlt)
          show (if xi ≤ a.1 then a.2
            else if xi ≤ b.1 then a.2 + (b.2 - a.2) * (xi - a.1) / (b.1 - a.1)
            else interpSorted (b :: t2) xi) = hi.2
          rw [if_neg hx1, if_pos hx2, hxib, mul_div_assoc, div_self hne,
            mul_one, ← hbhi]
          ring
        · show (if xi ≤ a.1 then a.2
            else if xi ≤ b.1 then a.2 + (b.2 - a.2) * (xi - a.1) / (b.1 - a.1)
            else interpSorted (b :: t2) xi) = hi.2
          rw [if_neg hx1, if_neg hx2]
          exact ih ht hhibt
            (fun p hp hne => hmax p (List.mem_cons_of_mem a hp) hne)

theorem interpSorted_segment (l : Curve) (a b : ℚ × ℚ) (xi : ℚ)
    (hs : l.Pairwise (fun u v => u.1 ≤ v.1))
    (hinj : ∀ p ∈ l, ∀ q ∈ l, p.1 = q.1 → p = q)
    (ha : a ∈ l) (hb : b ∈ l) (hab : a.1 < b.1)
    (hgap : ∀ q ∈ l, q.1 ≤ a.1 ∨ b.1 ≤ q.1)
    (h1 : a.1 ≤ xi) (h2 : xi ≤ b.1) :
    interpSorted l xi = a.2 + (b.2 - a.2) * (xi - a.1) / (b.1 - a.1) := by
  induction l with
  | nil => exact absurd ha (List.not_mem_nil a)
  | cons c t ih =>
    rcases List.pairwise_cons.mp hs with ⟨hcle, ht⟩
    have hcmin : ∀ p ∈ c :: t, c.1 ≤ p.1 := by
      intro p hp
      rcases List.mem_cons.mp hp with hp | hp
      · exact hp ▸ le_refl _
      · exact hcle p hp
    cases t with
    | nil =>
      have ha2 : a = c := by simpa using ha
      have hb2 : b = c := by simpa using hb
      rw [ha2, hb2] at hab
      exact absurd hab (lt_irrefl _)
    | cons d t2 =>
      have hdmin : ∀ p ∈ d :: t2, d.1 ≤ p.1 := by
        intro p hp
        rcases List.mem_cons.mp hp with hp | hp
        · exact hp ▸ le_refl _
        · exact (List.pairwise_cons.mp ht).1 p hp
      by_cases hx1 : xi ≤ c.1
      · have hca : c.1 = a.1 := le_antisymm (hcmin a ha) (le_trans h1 hx1)
        have hceq : c = a := hinj c (List.mem_cons_self c _) a ha hca
        have hxia : xi = a.1 := le_antisymm (le_trans hx1 (le_of_eq hca)) h1
        rw [interpSorted_head c (d :: t2) xi hx1, hceq, hxia]
        have : (b.2 - a.2) * (a.1 - a.1) / (b.1 - a.1) = 0 := by
          rw [sub_self, mul_zero, zero_div]
        rw [this, add_zero]
      · by_cases hx2 : xi ≤ d.1
        · have hcd : c.1 < d.1 := lt_of_lt_of_le (lt_of_not_le hx1) hx2
          have hdenom : d.1 - c.1 ≠ 0 := sub_ne_zero.mpr (ne_of_gt hcd)
          have hstep : interpSorted (c :: d :: t2) xi =
              c.2 + (d.2 - c.2) * (xi - c.1) / (d.1 - c.1) := by
            show (if xi ≤ c.1 then c.2
              else if xi ≤ d.1 then c.2 + (d.2 - c.2) * (xi - c.1) / (d.1 - c.1)
              else interpSorted (d :: t2) xi) = _
            rw [if_neg hx1, if_pos hx2]
          by_cases hac : a = c
          · -- the bracketing pair is (c, d) and d must be b
            have hdb : d = b := by
              have hd : d ∈ c :: d :: t2 :=
                List.mem_cons_of_mem c (List.mem_cons_self d t2)
              rcases hgap d hd with hle | hge
              · exfalso
                rw [hac] at hle
                exact absurd hcd (not_lt.mpr hle)
              · have hbd : b ∈ d :: t2 := by
                  rcases List.mem_cons.mp hb with hh | hh
                  · exfalso
                    rw [hh, hac] at hab
                    exact absurd hab (lt_irrefl _)
                  · exact hh
                have : d.1 = b.1 := le_antisymm (hdmin b hbd) hge
                exact hinj d hd b hb this
            rw [hstep, hac, hdb]
          · -- a sits in the tail; then xi pins everything to a single x
            have hat : a ∈ d :: t2 := by
              rcases List.mem_cons.mp ha with hh | hh
              · exact absurd hh hac
              · exact hh
            have hda : d.1 ≤ a.1 := hdmin a hat
            have hxa : xi = a.1 := le_antisymm (le_trans hx2 hda) h1
            have hxd : xi = d.1 := le_antisymm hx2 (hxa ▸ hda)
            have hdaeq : d = a := by
              refine hinj d (List.mem_cons_of_mem c (List.mem_cons_self d t2))
                a (List.mem_cons_of_mem c hat) ?_
              rw [← hxd, hxa]
            rw [hstep]
            have hr : (b.2 - a.2) * (xi - a.1) / (b.1 - a.1) = 0 := by
              rw [hxa, sub_self, mul_zero, zero_div]
            have hl : (d.2 - c.2) * (xi - c.1) / (d.1 - c.1) = d.2 - c.2 := by
              rw [hxd, mul_div_assoc, div_self hdenom, mul_one]
            rw [hr, add_zero, hl, hdaeq]
            ring
        · -- move past the first sample
          have hdx : d.1 < xi := lt_of_not_le hx2
          have hbt : b ∈ d :: t2 := by
            rcases List.mem_cons.mp hb with hh | hh
            · exfalso
              rw [hh] at h2
              exact hx1 h2
            · exact hh
          have hat : a ∈ d :: t2 := by
            rcases List.mem_cons.mp ha with hh | hh
            · -- a = c, and the gap condition forces d = c
              rcases hgap d (List.mem_cons_of_mem c (List.mem_cons_self d t2)) with
                hle | hge
              · have hle2 : d.1 ≤ c.1 := by rw [hh] at hle; exact hle
                have hcd2 : c.1 ≤ d.1 := hcle d (List.mem_cons_self d t2)
                have hdc : d = c :=
                  hinj d (List.mem_cons_of_mem c (List.mem_cons_self d t2))
                    c (List.mem_cons_self c _) (le_antisymm hle2 hcd2)
                rw [hh, ← hdc]
                exact List.mem_cons_self d t2
              · exact absurd (lt_of_le_of_lt hge hdx) (not_lt.mpr h2)
            · exact hh
          show (if xi ≤ c.1 then c.2
            else if xi ≤ d.1 then c.2 + (d.2 - c.2) * (xi - c.1) / (d.1 - c.1)
            else interpSorted (d :: t2) xi) = _
          rw [if_neg hx1, if_neg hx2]
          exact ih ht
            (fun p hp q hq => hinj p (List.mem_cons_of_mem c hp) q (List.mem_cons_of_mem c hq))
            hat hbt (fun q hq => hgap q (List.mem_cons_of_mem c hq))

theorem pairwise_head_min (p : ℚ × ℚ) (l : Curve)
    (h : (p :: l).Pairwise (fun a b => a.1 ≤ b.1)) :
    ∀ q ∈ p :: l, p.1 ≤ q.1 := by
  intro q hq
  rcases List.mem_cons.mp hq with hq | hq
  · exact hq ▸ le_refl _
  · exact (List.pairwise_cons.mp h).1 q hq

theorem interpSorted_bounds (l : Curve) (xi lo hi : ℚ)
    (hs : l.Pairwise (fun a b => a.1 ≤ b.1)) (hne : l ≠ [])
    (hy : ∀ p ∈ l, lo ≤ p.2 ∧ p.2 ≤ hi) :
    lo ≤ interpSorted l xi ∧ interpSorted l xi ≤ hi := by
  induction l with
  | nil => exact absurd rfl hne
  | cons a t ih =>
    rcases List.pairwise_cons.mp hs with ⟨hale, ht⟩
    cases t with
    | nil =>
      show lo ≤ a.2 ∧ a.2 ≤ hi
      exact hy a (List.mem_cons_self a _)
    | cons b t2 =>
      by_cases hx1 : xi ≤ a.1
      · rw [interpSorted_head a (b :: t2) xi hx1]
        exact hy a (List.mem_cons_self a _)
      · by_cases hx2 : xi ≤ b.1
        · have hax : a.1 < xi := lt_of_not_le hx1
          have hab : a.1 < b.1 := lt_of_lt_of_le hax hx2
          have hval : interpSorted (a :: b :: t2) xi =
              a.2 + (b.2 - a.2) * ((xi - a.1) / (b.1 - a.1)) := by
            show (if xi ≤ a.1 then a.2
              else if xi ≤ b.1 then a.2 + (b.2 - a.2) * (xi - a.1) / (b.1 - a.1)
              else interpSorted (b :: t2) xi) = _
            rw [if_neg hx1, if_pos hx2, mul_div_assoc]
          have hq0 : 0 ≤ (xi - a.1) / (b.1 - a.1) :=
            div_nonneg (by linarith) (by linarith)
          have hq1 : (xi - a.1) / (b.1 - a.1) ≤ 1 :=
            (div_le_one (by linarith)).mpr (by linarith)
          have hya := hy a (List.mem_cons_self a _)
          have hyb := hy b (List.mem_cons_of_mem a (List.mem_cons_self b t2))
          rw [hval]
          constructor
          · nlinarith [hya.1, hyb.1, hq0, hq1]
          · nlinarith [hya.2, hyb.2, hq0, hq1]
        · have hval : interpSorted (a :: b :: t2) xi = interpSorted (b :: t2) xi := by
            show (if xi ≤ a.1 then a.2
              else if xi ≤ b.1 then a.2 + (b.2 - a.2) * (xi - a.1) / (b.1 - a.1)
              else interpSorted (b :: t2) xi) = _
            rw [if_neg hx1, if_neg hx2]
          rw [hval]
          exact ih ht (List.cons_ne_nil b t2)
            (fun p hp => hy p (List.mem_cons_of_mem a hp))

theorem interp_vector_bounds (pts : Curve) (xi lo hi : ℚ) (hne : pts ≠ [])
    (hy : ∀ p ∈ pts, lo ≤ p.2 ∧ p.2 ≤ hi) :
    lo ≤ interp_vector pts xi ∧ interp_vector pts xi ≤ hi :=
  interpSorted_bounds (sortByX pts) xi lo hi (pairwise_sortByX pts)
    (sortByX_ne_nil pts hne) (fun p hp => hy p ((mem_sortByX p pts).mp hp))

/-! ## Concrete evaluation support -/

attribute [local semireducible] Rat.add Rat.sub Rat.mul Rat.inv Rat.ofScientific

deriving instance DecidableEq for Except

/-! ## Except and dispatch inversion lemmas -/

theorem except_bind_ok {ε α β : Type} (a : α) (f : α → Except ε β) :
    (Except.ok a : Except ε α) >>= f = f a := rfl

theorem except_bind_error {ε α β : Type} (e : ε) (f : α → Except ε β) :
    (Except.error e : Except ε α) >>= f = Except.error e := rfl

theorem except_bind_eq_ok {ε α β : Type} {x : Except ε α} {f : α → Except ε β}
    {b : β} (h : x >>= f = .ok b) : ∃ a, x = .ok a ∧ f a = .ok b := by
  cases x with
  | error e => rw [except_bind_error] at h; cases h
  | ok a => exact ⟨a, rfl, h⟩

theorem phase1_ok_shape {lib : EquipmentLibrary} {scen : EquipmentScenario}
    {rows rows' : List SiteRow} (h : phase1 lib scen rows = .ok rows') :
    (optStrTruthy scen.hr_wwhp = false ∧ rows' = rows) ∨
    ∃ hr plr, optStrTruthy scen.hr_wwhp = true ∧
      lib.get_equipment (scen.hr_wwhp.getD "") = some hr ∧
      _heat_recovery_plr_curve hr = .ok plr ∧ plr ≠ [] ∧
      rows' = rows.map (phase1Row hr plr) := by
  unfold phase1 at h
  split at h
  · rename_i hc
    injection h with h
    exact Or.inl ⟨hc, h.symm⟩
  · rename_i hc
    split at h
    · cases h
    · rename_i hr hge
      obtain ⟨plr, hplr, h2⟩ := except_bind_eq_ok h
      split at h2
      · cases h2
      · rename_i hne
        injection h2 with h2
        refine Or.inr ⟨hr, plr, ?_, hge, hplr, ?_, h2.symm⟩
        · simpa using hc
        · intro hnil
          exact hne (by rw [hnil]; rfl)

theorem phase2_ok_shape {lib : EquipmentLibrary} {scen : EquipmentScenario}
    {rows rows' : List SiteRow} {num : ℚ}
    (h : phase2 lib scen rows = .ok (rows', num)) :
    (optStrTruthy scen.awhp = false ∧ rows' = rows ∧ num = 0) ∨
    ∃ awhp_h capF copF, optStrTruthy scen.awhp = true ∧
      lib.get_equipment (scen.awhp.getD "") = some awhp_h ∧
      _per_unit_heating_capacity_W awhp_h = .ok capF ∧
      _per_unit_heating_cop awhp_h = .ok (some copF) ∧
      0 ≤ num ∧
      (scen.awhp_sizing_mode = some SizingMode.num_of_units →
        num = ((max 1 ⌈scen.awhp_sizing_value⌉ : ℤ) : ℚ)) ∧
      rows' = rows.map (phase2Row awhp_h capF copF num) := by
  unfold phase2 at h
  split at h
  · rename_i hc
    injection h with h
    exact Or.inl ⟨hc, (congrArg Prod.fst h).symm, (congrArg Prod.snd h).symm⟩
  · rename_i hc
    split at h
    · cases h
    · rename_i awhp_h hge
      obtain ⟨capF, hcap, h⟩ := except_bind_eq_ok h
      obtain ⟨copOpt, hcop, h⟩ := except_bind_eq_ok h
      rcases copOpt with _ | copF
      · cases h
      · rcases hmode : scen.awhp_sizing_mode with _ | mode
        · rw [hmode] at h
          cases h
        · rw [hmode] at h
          obtain ⟨cap_ref, hcapref, h⟩ := except_bind_eq_ok h
          obtain ⟨num0, hnum0, h⟩ := except_bind_eq_ok h
          injection h with h
          have hrows : rows' = rows.map (phase2Row awhp_h capF copF (max num0 0)) :=
            (congrArg Prod.fst h).symm
          have hnum : num = max num0 0 := (congrArg Prod.snd h).symm
          refine Or.inr ⟨awhp_h, capF, copF, by simpa using hc, hge, hcap, hcop,
            by rw [hnum]; exact le_max_right _ _, ?_, by rw [hnum]; exact hrows⟩
          intro hmode2
          injection hmode2 with hmode2
          subst hmode2
          have hnum0b : (if scen.awhp_sizing_value < 0 then
              (Except.error "requires awhp_sizing_value to be non-negative" :
                Except String ℚ)
            else Except.ok ((max 1 ⌈scen.awhp_sizing_value⌉ : ℤ) : ℚ)) =
              Except.ok num0 := hnum0
          split at hnum0b
          · cases hnum0b
          · injection hnum0b with hnum0b
            have h1 : (1 : ℚ) ≤ ((max 1 ⌈scen.awhp_sizing_value⌉ : ℤ) : ℚ) := by
              exact_mod_cast le_max_left 1 ⌈scen.awhp_sizing_value⌉
            rw [hnum, ← hnum0b, max_eq_left (by linarith)]

theorem phase3_ok_shape {lib : EquipmentLibrary} {scen : EquipmentScenario}
    {rows rows' : List SiteRow} (h : phase3 lib scen rows = .ok rows') :
    (optStrTruthy scen.boiler = false ∧ rows' = rows) ∨
    ∃ blr eff, optStrTruthy scen.boiler = true ∧
      lib.get_equipment (scen.boiler.getD "") = some blr ∧
      _constant_heating_efficiency blr = .ok (some eff) ∧ 0 < eff ∧
      rows' = rows.map (phase3Row eff) := by
  unfold phase3 at h
  split at h
  · rename_i hc
    injection h with h
    exact Or.inl ⟨hc, h.symm⟩
  · rename_i hc
    split at h
    · cases h
    · rename_i blr hge
      obtain ⟨effO, heff, h⟩ := except_bind_eq_ok h
      rcases effO with _ | eff
      · cases h
      · have h2 : (if eff ≤ 0 then
            (Except.error "Boiler requires a positive efficiency" :
              Except String (List SiteRow))
          else Except.ok (rows.map (phase3Row eff))) = Except.ok rows' := h
        split at h2
        · cases h2
        · rename_i hpos
          injection h2 with h2
          exact Or.inr ⟨blr, eff, by simpa using hc, hge, heff,
            lt_of_not_le hpos, h2.symm⟩

theorem phase4_shape (rows : List SiteRow) :
    (rows.any (fun r => decide ((1e-9 : ℚ) < r.hhw_rem_W)) = true ∧
      phase4 rows = rows.map phase4Row) ∨
    (rows.any (fun r => decide ((1e-9 : ℚ) < r.hhw_rem_W)) = false ∧
      phase4 rows = rows) := by
  unfold phase4
  by_cases hc : rows.any (fun r => decide ((1e-9 : ℚ) < r.hhw_rem_W)) = true
  · exact Or.inl ⟨hc, by rw [if_pos hc]⟩
  · exact Or.inr ⟨by simpa using hc, by rw [if_neg hc]⟩

theorem phase5_ok_shape {lib : EquipmentLibrary} {scen : EquipmentScenario}
    {rows rows' : List SiteRow} {num : ℚ}
    (h : phase5 lib scen rows num = .ok rows') :
    (¬ (optStrTruthy scen.awhp = true ∧ scen.awhp_use_cooling = true) ∧
      rows' = rows) ∨
    ∃ awhp_c capF copF,
      optStrTruthy scen.awhp = true ∧ scen.awhp_use_cooling = true ∧
      lib.get_equipment (scen.awhp.getD "") = some awhp_c ∧
      _per_unit_cooling_capacity_W awhp_c = .ok capF ∧
      _per_unit_cooling_cop awhp_c = .ok (some copF) ∧
      rows' = rows.map (phase5Row capF copF num) := by
  unfold phase5 at h
  split at h
  · rename_i hc
    injection h with h
    refine Or.inl ⟨?_, h.symm⟩
    intro hand
    exact hc ⟨hand.1, hand.2⟩
  · rename_i hc
    have hand : optStrTruthy scen.awhp = true ∧ scen.awhp_use_cooling = true := by
      by_contra hno
      exact hc (fun hcontra => hno ⟨hcontra.1, hcontra.2⟩) |>.elim
    split at h
    · cases h
    · rename_i awhp_c hge
      obtain ⟨capF, hcap, h⟩ := except_bind_eq_ok h
      obtain ⟨copOpt, hcop, h⟩ := except_bind_eq_ok h
      match copOpt, hcop with
      | none, hcop => cases h
      | some copF, hcop =>
        injection h with h
        exact Or.inr ⟨awhp_c, capF, copF, hand.1, hand.2, hge, hcap, hcop, h.symm⟩

theorem phase6Scalar_ok_shape {rows rows' : List SiteRow} {cop : ℚ}
    {chlVar chl' : Option Equipment} {early : Bool}
    (h : phase6Scalar rows cop chlVar = .ok (rows', chl', early)) :
    ∃ chl, chlVar = some chl ∧ chl' = some chl ∧ early = false ∧
      rows' = (rows.map (phase6ScalarRow chl cop)).map roundRow4 := by
  unfold phase6Scalar at h
  match chlVar with
  | none => cases h
  | some chl =>
    injection h with h
    exact ⟨chl, rfl, (congrArg (fun t => t.2.1) h).symm,
      (congrArg (fun t => t.2.2) h).symm, (congrArg (fun t => t.1) h).symm⟩

theorem phase6Curve_ok_shape {rows rows' : List SiteRow} {chl : Equipment}
    {chl' : Option Equipment} {early : Bool}
    (h : phase6Curve rows chl = .ok (rows', chl', early)) :
    (∃ copF, _per_unit_cooling_cop chl = .ok (some copF) ∧ early = true ∧
      chl' = some chl ∧ rows' = rows.map (phase6CurveRow copF)) ∨
    (_per_unit_cooling_cop chl = .ok none ∧ early = false ∧ chl' = some chl ∧
      rows' = (rows.map (phase6ScalarRow chl 5)).map roundRow4) := by
  unfold phase6Curve at h
  obtain ⟨copOpt, hcop, h⟩ := except_bind_eq_ok h
  match copOpt, hcop with
  | some copF, hcop =>
    injection h with h
    exact Or.inl ⟨copF, hcop, (congrArg (fun t => t.2.2) h).symm,
      (congrArg (fun t => t.2.1) h).symm, (congrArg (fun t => t.1) h).symm⟩
  | none, hcop =>
    obtain ⟨chl2, hsome, hchl', hearly, hrows⟩ := phase6Scalar_ok_shape h
    injection hsome with hsome
    subst hsome
    exact Or.inr ⟨hcop, hearly, hchl', hrows⟩

theorem phase6_ok_shape {lib : EquipmentLibrary} {scen : EquipmentScenario}
    {rows rows' : List SiteRow} {chl0 chl' : Option Equipment} {early : Bool}
    (h : phase6 lib scen rows chl0 = .ok (rows', chl', early)) :
    (¬ ((1e-9 : ℚ) < (rows.map (fun r => r.chw_rem_W)).sum) ∧
      rows' = rows ∧ chl' = chl0 ∧ early = false) ∨
    ((1e-9 : ℚ) < (rows.map (fun r => r.chw_rem_W)).sum ∧
      ∃ chl copF, early = true ∧ chl' = some chl ∧
        rows' = rows.map (phase6CurveRow copF)) ∨
    ((1e-9 : ℚ) < (rows.map (fun r => r.chw_rem_W)).sum ∧
      ∃ chl cop, early = false ∧ chl' = some chl ∧
        (optStrTruthy scen.chiller = false → chl0 = some chl ∧ cop = 5) ∧
        rows' = (rows.map (phase6ScalarRow chl cop)).map roundRow4) := by
  unfold phase6 at h
  split at h
  · rename_i hc
    injection h with h
    exact Or.inl ⟨hc, (congrArg (fun t => t.1) h).symm,
      (congrArg (fun t => t.2.1) h).symm, (congrArg (fun t => t.2.2) h).symm⟩
  · rename_i hc
    have hsum : (1e-9 : ℚ) < (rows.map (fun r => r.chw_rem_W)).sum :=
      not_not.mp hc
    split at h
    · rename_i htr
      split at h
      · cases h
      · rename_i chl hge
        obtain ⟨effO, heff, h⟩ := except_bind_eq_ok h
        rcases effO with _ | eff
        · have h2 : phase6Curve rows chl = .ok (rows', chl', early) := h
          rcases phase6Curve_ok_shape h2 with
            ⟨copF, hcopc, hearly, hchl', hrows⟩ | ⟨hcopc, hearly, hchl', hrows⟩
          · exact Or.inr (Or.inl ⟨hsum, chl, copF, hearly, hchl', hrows⟩)
          · exact Or.inr (Or.inr ⟨hsum, chl, 5, hearly, hchl',
              fun hf => absurd htr (by rw [hf]; decide), hrows⟩)
        · have h2 : (if 0 < eff then phase6Scalar rows eff (some chl)
              else phase6Curve rows chl) = .ok (rows', chl', early) := h
          split at h2
          · obtain ⟨chl2, hsome, hchl', hearly, hrows⟩ := phase6Scalar_ok_shape h2
            injection hsome with hsome
            subst hsome
            exact Or.inr (Or.inr ⟨hsum, chl, eff, hearly, hchl',
              fun hf => absurd htr (by rw [hf]; decide), hrows⟩)
          · rcases phase6Curve_ok_shape h2 with
              ⟨copF, hcopc, hearly, hchl', hrows⟩ | ⟨hcopc, hearly, hchl', hrows⟩
            · exact Or.inr (Or.inl ⟨hsum, chl, copF, hearly, hchl', hrows⟩)
            · exact Or.inr (Or.inr ⟨hsum, chl, 5, hearly, hchl',
                fun hf => absurd htr (by rw [hf]; decide), hrows⟩)
    · rename_i htr
      obtain ⟨chl, hsome, hchl', hearly, hrows⟩ := phase6Scalar_ok_shape h
      exact Or.inr (Or.inr ⟨hsum, chl, 5, hearly, hchl',
        fun _ => ⟨hsome, rfl⟩, hrows⟩)

theorem dispatch_scenario_ok_shape {load : List LoadRow}
    {lib : EquipmentLibrary} {id : String} {chl0 : Option Equipment}
    {out : List SiteRow} {chl' : Option Equipment} {early : Bool}
    (h : dispatch_scenario load lib id chl0 = .ok (out, chl', early)) :
    ∃ scen rows1 rows2 num rows3 rows5 rows6,
      lib.get_scenario id = some scen ∧
      phase1 lib scen (load.map initRow) = .ok rows1 ∧
      phase2 lib scen rows1 = .ok (rows2, num) ∧
      phase3 lib scen rows2 = .ok rows3 ∧
      phase5 lib scen (phase4 rows3) num = .ok rows5 ∧
      phase6 lib scen rows5 chl0 = .ok (rows6, chl', early) ∧
      ((early = true ∧ out = rows6) ∨
       (early = false ∧ out = rows6.map (tagRow id scen.eq_scen_name))) := by
  unfold dispatch_scenario at h
  split at h
  · cases h
  · rename_i scen hgs
    obtain ⟨rows1, h1, h⟩ := except_bind_eq_ok h
    obtain ⟨p2, h2, h⟩ := except_bind_eq_ok h
    obtain ⟨rows2, num⟩ := p2
    obtain ⟨rows3, h3, h⟩ := except_bind_eq_ok h
    obtain ⟨rows5, h5, h⟩ := except_bind_eq_ok h
    obtain ⟨p6, h6, h⟩ := except_bind_eq_ok h
    obtain ⟨rows6, chl1, e⟩ := p6
    have hfin : (if e = true then Except.ok (rows6, chl1, true)
        else Except.ok (rows6.map (tagRow id scen.eq_scen_name), chl1, false)) =
          Except.ok (out, chl', early) := h
    split at hfin
    · rename_i he
      injection hfin with hfin
      have hout : out = rows6 := (congrArg (fun t => t.1) hfin).symm
      have hchl : chl' = chl1 := (congrArg (fun t => t.2.1) hfin).symm
      have hearly : early = true := (congrArg (fun t => t.2.2) hfin).symm
      refine ⟨scen, rows1, rows2, num, rows3, rows5, rows6, hgs, h1, h2, h3, h5, ?_, ?_⟩
      · rw [hchl, hearly, ← he]
        exact h6
      · exact Or.inl ⟨hearly, hout⟩
    · rename_i he
      have heb : e = false := Bool.not_eq_true e |>.mp he
      injection hfin with hfin
      have hout : out = rows6.map (tagRow id scen.eq_scen_name) :=
        (congrArg (fun t => t.1) hfin).symm
      have hchl : chl' = chl1 := (congrArg (fun t => t.2.1) hfin).symm
      have hearly : early = false := (congrArg (fun t => t.2.2) hfin).symm
      refine ⟨scen, rows1, rows2, num, rows3, rows5, rows6, hgs, h1, h2, h3, h5, ?_, ?_⟩
      · rw [hchl, hearly, ← heb]
        exact h6
      · exact Or.inr ⟨hearly, hout⟩

/-! ## Rounding and list extrema lemmas -/

theorem rhe_close (q : ℚ) : |((rhe q : ℚ)) - q| ≤ 1/2 := by
  unfold rhe
  have hfl : (⌊q⌋ : ℚ) ≤ q := Int.floor_le q
  have hfu : q < (⌊q⌋ : ℚ) + 1 := Int.lt_floor_add_one q
  split
  · rename_i hlt
    rw [abs_le]
    constructor <;> linarith
  · split
    · rename_i hle hgt
      rw [abs_le]
      push_cast
      constructor <;> linarith [not_lt.mp hle]
    · split <;> rename_i hle hgt _ <;> rw [abs_le] <;> push_cast <;>
        constructor <;> linarith [not_lt.mp hle, not_lt.mp hgt]

theorem round4_close (x : ℚ) : |round4 x - x| ≤ 1/20000 := by
  unfold round4
  have h := rhe_close (x * 10000)
  have h2 : ((rhe (x * 10000) : ℚ)) / 10000 - x =
      (((rhe (x * 10000) : ℚ)) - x * 10000) / 10000 := by ring
  rw [h2, abs_div, abs_of_pos (show (0:ℚ) < 10000 by norm_num),
    div_le_iff₀ (show (0:ℚ) < 10000 by norm_num)]
  linarith

theorem rhe_intCast (m : ℤ) : rhe (m : ℚ) = m := by
  unfold rhe
  rw [Int.floor_intCast]
  rw [if_pos (by norm_num)]

theorem round4_intCast (n : ℤ) : round4 (n : ℚ) = (n : ℚ) := by
  unfold round4
  have h : (n : ℚ) * 10000 = ((n * 10000 : ℤ) : ℚ) := by push_cast; ring
  rw [h, rhe_intCast]
  push_cast
  field_simp

theorem round4_zero : round4 0 = 0 := by
  have := round4_intCast 0
  simpa using this

theorem round4_small (x : ℚ) (h0 : 0 ≤ x) (h1 : x ≤ 1e-9) : round4 x = 0 := by
  unfold round4
  have hfl : ⌊x * 10000⌋ = 0 := by
    rw [Int.floor_eq_zero_iff]
    constructor
    · positivity
    · linarith
  unfold rhe
  rw [hfl]
  rw [if_pos]
  · norm_num
  · push_cast
    rw [sub_zero]
    linarith

theorem le_listMax {l : List ℚ} {x : ℚ} (hx : x ∈ l) : x ≤ listMax l := by
  have haux : ∀ (l2 : List ℚ) (a : ℚ), a ≤ l2.foldl max a := by
    intro l2
    induction l2 with
    | nil => intro a; exact le_refl a
    | cons b t ih =>
      intro a
      calc a ≤ max a b := le_max_left a b
        _ ≤ t.foldl max (max a b) := ih (max a b)
  have haux2 : ∀ (l2 : List ℚ) (a : ℚ), x ∈ l2 → x ≤ l2.foldl max a := by
    intro l2
    induction l2 with
    | nil => intro a hmem; exact absurd hmem (List.not_mem_nil x)
    | cons b t ih =>
      intro a hmem
      rcases List.mem_cons.mp hmem with hmem | hmem
      · subst hmem
        calc x ≤ max a x := le_max_right a x
          _ ≤ t.foldl max (max a x) := haux t (max a x)
      · exact ih (max a b) hmem
  exact haux2 l _ hx

theorem listMin_nonneg {l : List ℚ} (h : ∀ x ∈ l, 0 ≤ x) : 0 ≤ listMin l := by
  have haux : ∀ (l2 : List ℚ) (a : ℚ), 0 ≤ a → (∀ x ∈ l2, 0 ≤ x) →
      0 ≤ l2.foldl min a := by
    intro l2
    induction l2 with
    | nil => intro a ha _; exact ha
    | cons b t ih =>
      intro a ha hall
      exact ih (min a b) (le_min ha (hall b (List.mem_cons_self b t)))
        (fun x hx => hall x (List.mem_cons_of_mem b hx))
  cases l with
  | nil => exact le_refl 0
  | cons a t =>
    refine haux (a :: t) _ ?_ h
    simpa using h a (List.mem_cons_self a t)

theorem interp_vector_nonneg (pts : Curve) (xi : ℚ)
    (h : ∀ p ∈ pts, 0 ≤ p.2) : 0 ≤ interp_vector pts xi := by
  by_cases hne : pts = []
  · subst hne
    show (0:ℚ) ≤ interpSorted (sortByX []) xi
    simp [sortByX, interpSorted]
  · have hb := interp_vector_bounds pts xi 0 (listMax (pts.map Prod.snd)) hne
      (fun p hp => ⟨h p hp, le_listMax (List.mem_map.mpr ⟨p, hp, rfl⟩)⟩)
    exact hb.1

theorem loads_single_shape {load : List LoadRow} {lib : EquipmentLibrary}
    {id : String} {rows : List SiteRow}
    (h : loads_to_site_energy load lib [id] = .ok rows) :
    ∃ chl' early, dispatch_scenario load lib id none = .ok (rows, chl', early) := by
  unfold loads_to_site_energy at h
  rw [if_neg (by simp)] at h
  unfold dispatch_go at h
  split at h
  · cases h
  · rename_i r c e hds
    split at h
    · rename_i he
      injection h with h
      exact ⟨c, e, by rw [← h]; exact hds⟩
    · unfold dispatch_go at h
      injection h with h
      rw [List.nil_append] at h
      exact ⟨c, e, by rw [← h]; exact hds⟩

/-- Phases 3-6 and the final tagging act pointwise; a row projection that
every late row function leaves unchanged (and that the final rounding maps
through g) survives from the end of phase 2 to the output. -/
theorem late_phases_preserve {α : Type} (f : SiteRow → α) (g : α → α)
    (hf3 : ∀ eff r, f (phase3Row eff r) = f r)
    (hf4 : ∀ r, f (phase4Row r) = f r)
    (hf5 : ∀ capF copF num r, f (phase5Row capF copF num r) = f r)
    (hf6s : ∀ chl cop r, f (phase6ScalarRow chl cop r) = f r)
    (hf6c : ∀ copF r, f (phase6CurveRow copF r) = f r)
    (hfr : ∀ r, f (roundRow4 r) = g (f r))
    (hft : ∀ id name r, f (tagRow id name r) = f r)
    {lib : EquipmentLibrary} {scen : EquipmentScenario}
    {rows2 rows3 rows5 rows6 out : List SiteRow} {num : ℚ}
    {chl0 chl' : Option Equipment} {early : Bool} {id : String}
    (h3 : phase3 lib scen rows2 = .ok rows3)
    (h5 : phase5 lib scen (phase4 rows3) num = .ok rows5)
    (h6 : phase6 lib scen rows5 chl0 = .ok (rows6, chl', early))
    (hout : (early = true ∧ out = rows6) ∨
      (early = false ∧ out = rows6.map (tagRow id scen.eq_scen_name)))
    {q : α} (hall : ∀ r ∈ rows2, f r = q) :
    ∀ r ∈ out, f r = q ∨ f r = g q := by
  have hall3 : ∀ r ∈ rows3, f r = q := by
    rcases phase3_ok_shape h3 with ⟨_, he⟩ | ⟨blr, eff, _, _, _, _, he⟩ <;> subst he
    · exact hall
    · intro r hr
      rcases List.mem_map.mp hr with ⟨r0, hr0, rfl⟩
      rw [hf3]
      exact hall r0 hr0
  have hall4 : ∀ r ∈ phase4 rows3, f r = q := by
    rcases phase4_shape rows3 with ⟨_, he⟩ | ⟨_, he⟩ <;> rw [he]
    · intro r hr
      rcases List.mem_map.mp hr with ⟨r0, hr0, rfl⟩
      rw [hf4]
      exact hall3 r0 hr0
    · exact hall3
  have hall5 : ∀ r ∈ rows5, f r = q := by
    rcases phase5_ok_shape h5 with ⟨_, he⟩ |
      ⟨aw, capF, copF, _, _, _, _, _, he⟩ <;> subst he
    · exact hall4
    · intro r hr
      rcases List.mem_map.mp hr with ⟨r0, hr0, rfl⟩
      rw [hf5]
      exact hall4 r0 hr0
  have hall6 : ∀ r ∈ rows6, f r = q ∨ f r = g q := by
    rcases phase6_ok_shape h6 with ⟨_, he, _, _⟩ |
      ⟨_, chl, copF, _, _, he⟩ | ⟨_, chl, cop, _, _, _, he⟩
    · subst he
      exact fun r hr => Or.inl (hall5 r hr)
    · subst he
      intro r hr
      rcases List.mem_map.mp hr with ⟨r0, hr0, rfl⟩
      rw [hf6c]
      exact Or.inl (hall5 r0 hr0)
    · subst he
      intro r hr
      rcases List.mem_map.mp hr with ⟨r1, hr1, rfl⟩
      rcases List.mem_map.mp hr1 with ⟨r0, hr0, rfl⟩
      rw [hfr, hf6s]
      exact Or.inr (congrArg g (hall5 r0 hr0))
  rcases hout with ⟨_, he⟩ | ⟨_, he⟩ <;> subst he
  · exact hall6
  · intro r hr
    rcases List.mem_map.mp hr with ⟨r0, hr0, rfl⟩
    rw [hft]
    exact hall6 r0 hr0

/-! ## Forward evaluation of dispatch for inactive roles -/

theorem phase1_skip {lib : EquipmentLibrary} {scen : EquipmentScenario}
    {rows : List SiteRow} (h : optStrTruthy scen.hr_wwhp = false) :
    phase1 lib scen rows = .ok rows := by
  unfold phase1
  rw [if_pos h]

theorem phase2_skip {lib : EquipmentLibrary} {scen : EquipmentScenario}
    {rows : List SiteRow} (h : optStrTruthy scen.awhp = false) :
    phase2 lib scen rows = .ok (rows, 0) := by
  unfold phase2
  rw [if_pos h]

theorem phase3_skip {lib : EquipmentLibrary} {scen : EquipmentScenario}
    {rows : List SiteRow} (h : optStrTruthy scen.boiler = false) :
    phase3 lib scen rows = .ok rows := by
  unfold phase3
  rw [if_pos h]

theorem phase5_skip {lib : EquipmentLibrary} {scen : EquipmentScenario}
    {rows : List SiteRow} {num : ℚ} (h : optStrTruthy scen.awhp = false) :
    phase5 lib scen rows num = .ok rows := by
  have hc : ¬ (optStrTruthy scen.awhp = true ∧ scen.awhp_use_cooling = true) := by
    intro hand
    rw [h] at hand
    exact absurd hand.1 (by decide)
  unfold phase5
  rw [if_pos hc]

/-- A configured chiller whose constant efficiency is missing or
non-positive and whose cooling COP curve is absent does not raise: phase 6
either skips (the cooling remainder sum is tiny) or serves the whole
remainder at the default COP 5 and rounds. -/
theorem phase6_fallback_cop5 {lib : EquipmentLibrary}
    {scen : EquipmentScenario} {rows : List SiteRow}
    {chl0 : Option Equipment} {chl : Equipment}
    (htr : optStrTruthy scen.chiller = true)
    (hge : lib.get_equipment (scen.chiller.getD "") = some chl)
    (heff : _constant_cooling_efficiency chl = .ok none ∨
      ∃ e, _constant_cooling_efficiency chl = .ok (some e) ∧ e ≤ 0)
    (hcurve : _per_unit_cooling_cop chl = .ok none) :
    phase6 lib scen rows chl0 = .ok (rows, chl0, false) ∨
    phase6 lib scen rows chl0 =
      .ok ((rows.map (phase6ScalarRow chl 5)).map roundRow4, some chl, false) := by
  unfold phase6
  by_cases hsum : ¬ ((1e-9 : ℚ) < (rows.map (fun r => r.chw_rem_W)).sum)
  · left
    rw [if_pos hsum]
  · right
    rw [if_neg hsum, if_pos htr]
    have hcurve6 : phase6Curve rows chl =
        .ok ((rows.map (phase6ScalarRow chl 5)).map roundRow4, some chl, false) := by
      unfold phase6Curve
      rw [hcurve]
      rfl
    split
    · rename_i hn
      rw [hge] at hn
      cases hn
    · rename_i c hc
      rw [hge] at hc
      injection hc with hc
      subst hc
      rcases heff with heff | ⟨e, heff, hle⟩
      · rw [heff]
        exact hcurve6
      · rw [heff]
        have hif : (if 0 < e then phase6Scalar rows e (some chl)
            else phase6Curve rows chl) =
            .ok ((rows.map (phase6ScalarRow chl 5)).map roundRow4, some chl,
              false) := by
          rw [if_neg (not_lt.mpr hle)]
          exact hcurve6
        exact hif

/-- Forward evaluation of one scenario iteration when only the chiller role
is active: phases 1-5 pass the initial rows through unchanged and the
phase-6 result is tagged. -/
theorem dispatch_scenario_eval {load : List LoadRow} {lib : EquipmentLibrary}
    {id : String} {scen : EquipmentScenario} {chl0 : Option Equipment}
    {out6 : List SiteRow} {chl6 : Option Equipment}
    (hgs : lib.get_scenario id = some scen)
    (hhr : optStrTruthy scen.hr_wwhp = false)
    (haw : optStrTruthy scen.awhp = false)
    (hbo : optStrTruthy scen.boiler = false)
    (h6 : phase6 lib scen (phase4 (load.map initRow)) chl0 =
      .ok (out6, chl6, false)) :
    dispatch_scenario load lib id chl0 =
      .ok (out6.map (tagRow id scen.eq_scen_name), chl6, false) := by
  unfold dispatch_scenario
  split
  · rename_i hn
    rw [hgs] at hn
    cases hn
  · rename_i scen2 hs
    rw [hgs] at hs
    injection hs with hs
    subst hs
    rw [phase1_skip hhr]
    simp only [except_bind_ok]
    rw [phase2_skip haw]
    simp only [except_bind_ok]
    rw [phase3_skip hbo]
    simp only [except_bind_ok]
    rw [phase5_skip haw]
    simp only [except_bind_ok]
    have h6b : phase6 lib scen (phase4 ((load.map initRow, (0 : ℚ)).1)) chl0 =
        .ok (out6, chl6, false) := h6
    rw [h6b]
    rfl

/-- A single-scenario call returns exactly the rows of its one
(non-early-returning) scenario iteration. -/
theorem loads_single_eval {load : List LoadRow} {lib : EquipmentLibrary}
    {id : String} {out : List SiteRow} {chl' : Option Equipment}
    (h : dispatch_scenario load lib id none = .ok (out, chl', false)) :
    loads_to_site_energy load lib [id] = .ok out := by
  unfold loads_to_site_energy
  rw [if_neg (by simp)]
  unfold dispatch_go
  rw [h]
  rfl

/-! ## Claim C2 -/

/-- C2: every curve lookup used by dispatch goes through interp_vector;
a query point below the smallest sample x or above the largest sample x
returns exactly the y value of the nearest boundary sample (clamped, never
extrapolated), and query points inside the sample domain are linearly
interpolated between the bracketing samples. -/
theorem c2_curve_lookup_clamps_and_interpolates (pts : Curve) (xi : ℚ)
    (hinj : ∀ p ∈ pts, ∀ q ∈ pts, p.1 = q.1 → p = q) :
    (∀ lo ∈ pts, (∀ p ∈ pts, p ≠ lo → lo.1 < p.1) → xi ≤ lo.1 →
      interp_vector pts xi = lo.2) ∧
    (∀ hi ∈ pts, (∀ p ∈ pts, p ≠ hi → p.1 < hi.1) → hi.1 ≤ xi →
      interp_vector pts xi = hi.2) ∧
    (∀ a ∈ pts, ∀ b ∈ pts, a.1 < b.1 → (∀ q ∈ pts, q.1 ≤ a.1 ∨ b.1 ≤ q.1) →
      a.1 ≤ xi → xi ≤ b.1 →
      interp_vector pts xi = a.2 + (b.2 - a.2) * (xi - a.1) / (b.1 - a.1)) := by
  have hsp := pairwise_sortByX pts
  refine ⟨?_, ?_, ?_⟩
  · intro lo hlo hmin hxi
    show interpSorted (sortByX pts) xi = lo.2
    rcases hseq : sortByX pts with _ | ⟨h, t⟩
    · have := (mem_sortByX lo pts).mpr hlo
      rw [hseq] at this
      exact absurd this (List.not_mem_nil lo)
    · have hhp : h ∈ pts := by
        refine (mem_sortByX h pts).mp ?_
        rw [hseq]
        exact List.mem_cons_self h t
      have hm : h.1 ≤ lo.1 := by
        rw [hseq] at hsp
        refine pairwise_head_min h t hsp lo ?_
        rw [← hseq]
        exact (mem_sortByX lo pts).mpr hlo
      have hhlo : h = lo := by
        by_contra hne
        exact absurd hm (not_le.mpr (hmin h hhp hne))
      rw [hhlo]
      exact interpSorted_head lo t xi hxi
  · intro hi hhi hmax hxi
    exact interpSorted_last (sortByX pts) hi xi hsp
      ((mem_sortByX hi pts).mpr hhi)
      (fun p hp hne => hmax p ((mem_sortByX p pts).mp hp) hne) hxi
  · intro a ha b hb hab hgap h1 h2
    exact interpSorted_segment (sortByX pts) a b xi hsp
      (fun p hp q hq => hinj p ((mem_sortByX p pts).mp hp) q ((mem_sortByX q pts).mp hq))
      ((mem_sortByX a pts).mpr ha) ((mem_sortByX b pts).mpr hb) hab
      (fun q hq => hgap q ((mem_sortByX q pts).mp hq)) h1 h2

/-- Witness for C2 on the concrete curve [(0, 10), (10, 20), (30, 24)]:
clamp below at -5, clamp above at 50, linear interpolation at 4. -/
theorem c2_curve_lookup_clamps_and_interpolates_witness :
    interp_vector [(0, 10), (10, 20), (30, 24)] (-5) = 10 ∧
    interp_vector [(0, 10), (10, 20), (30, 24)] 50 = 24 ∧
    interp_vector [(0, 10), (10, 20), (30, 24)] 4 = 14 := by
  refine ⟨?_, ?_, ?_⟩
  · exact (c2_curve_lookup_clamps_and_interpolates
      [(0, 10), (10, 20), (30, 24)] (-5) (by decide)).1
      (0, 10) (by decide) (by decide) (by decide)
  · exact (c2_curve_lookup_clamps_and_interpolates
      [(0, 10), (10, 20), (30, 24)] 50 (by decide)).2.1
      (30, 24) (by decide) (by decide) (by decide)
  · have := (c2_curve_lookup_clamps_and_interpolates
      [(0, 10), (10, 20), (30, 24)] 4 (by decide)).2.2
      (0, 10) (by decide) (10, 20) (by decide) (by decide) (by decide)
      (by decide) (by decide)
    rw [this]
    decide

/-! ## Claim C3 -/

/-- C3: a scenario with positive remaining cooling demand after phase 5 and
no chiller configured does not complete at the default COP of 5.0; phase 6
dereferences the never-assigned local chl and the call raises.  This
evaluates the code at the failing input (one hour with 10 W of cooling
demand, a scenario with no equipment at all). -/
theorem c3_no_chiller_raises_unbound_local :
    loads_to_site_energy loadCool demoLib ["s_empty"] =
      .error "UnboundLocalError: chl referenced before assignment" := by
  decide

/-! ## Claim C5 -/

/-- C5: the blended hourly electricity emission rate computed by
site_to_source on the canonical rows produced by get_emissions_data is
lrmer_c (1-w) + srmer_c w for Combustion only and
(lrmer_c + lrmer_p)(1-w) + (srmer_c + srmer_p) w for Includes
pre-combustion, where in the pre-combustion case get_emissions_data has
filled both the _c and _p slots with the full life-cycle columns; for
Combustion only with w = 0 the blended rate is exactly the long-run
combustion rate. -/
theorem c5_blended_rate_formula (scen : EmissionScenario)
    (table : List RawEmissionRow) (rows : List EmRow)
    (hok : get_emissions_data scen table = .ok rows) :
    ∀ r ∈ rows,
      (scen.emission_type = "Combustion only" →
        blended_rate scen.emission_type scen.shortrun_weighting r =
          .ok (r.lrmer_co2e_c * (1 - scen.shortrun_weighting) +
               r.srmer_co2e_c * scen.shortrun_weighting)) ∧
      (scen.emission_type = "Includes pre-combustion" →
        blended_rate scen.emission_type scen.shortrun_weighting r =
          .ok ((r.lrmer_co2e_c + r.lrmer_co2e_p) * (1 - scen.shortrun_weighting) +
               (r.srmer_co2e_c + r.srmer_co2e_p) * scen.shortrun_weighting) ∧
        ∃ raw ∈ table, r.lrmer_co2e_c = raw.lrmer_co2e ∧
          r.lrmer_co2e_p = raw.lrmer_co2e ∧ r.srmer_co2e_c = raw.srmer_co2e ∧
          r.srmer_co2e_p = raw.srmer_co2e) ∧
      (scen.emission_type = "Combustion only" → scen.shortrun_weighting = 0 →
        blended_rate scen.emission_type scen.shortrun_weighting r =
          .ok r.lrmer_co2e_c) := by
  intro r hr
  refine ⟨?_, ?_, ?_⟩
  · intro htype
    rw [blended_rate, if_pos htype]
  · intro htype
    constructor
    · rw [blended_rate, if_neg (by rw [htype]; decide), if_pos htype]
    · unfold get_emissions_data at hok
      by_cases he : (table.filter (fun r =>
          r.emission_scenario == scen.grid_scenario &&
          r.gea_grid_region == scen.gea_grid_region &&
          r.year == scen.year)).isEmpty
      · rw [if_pos he] at hok
        exact absurd hok (by simp)
      · rw [if_neg he, if_neg (by rw [htype]; decide), if_pos htype] at hok
        have hrows := (Except.ok.injEq _ _).mp hok
        rw [← hrows] at hr
        rcases List.mem_map.mp hr with ⟨raw, hraw, hmap⟩
        refine ⟨raw, List.mem_of_mem_filter hraw, ?_, ?_, ?_, ?_⟩ <;>
          rw [← hmap]
  · intro htype hw
    rw [blended_rate, if_pos htype, hw]
    norm_num

/-- Witness for C5: a one-row combustion-only table with w = 0; the blended
rate equals the long-run combustion rate 400 exactly, ignoring the short-run
value 999. -/
theorem c5_blended_rate_formula_witness :
    blended_rate "Combustion only" 0
      { year := 2025, month := 1, hour := 0, lrmer_co2e_c := 400,
        lrmer_co2e_p := 50, srmer_co2e_c := 999, srmer_co2e_p := 20 } =
      .ok 400 := by
  have h := c5_blended_rate_formula
    { em_scen_id := "a", grid_scenario := "MidCase", gea_grid_region := "CAISO",
      emission_type := "Combustion only", shortrun_weighting := 0,
      annual_refrig_leakage_percent := 0.05, year := 2025 }
    [{ emission_scenario := "MidCase", gea_grid_region := "CAISO", year := 2025,
       month := 1, day := 1, hour := 0, lrmer_co2e_c := 400, lrmer_co2e_p := 50,
       srmer_co2e_c := 999, srmer_co2e_p := 20, lrmer_co2e := 450,
       srmer_co2e := 1019 }]
    [{ year := 2025, month := 1, hour := 0, lrmer_co2e_c := 400,
       lrmer_co2e_p := 50, srmer_co2e_c := 999, srmer_co2e_p := 20 }]
    (by decide)
  exact (h _ (List.mem_cons_self _ _)).2.2 rfl rfl

/-! ## Claim C6 -/

theorem site_to_source_scenario_errors (df_loads : List SiteEnergyRow)
    (s : EmissionScenario) (table : List RawEmissionRow) (g : ℚ) :
    ∃ msg, site_to_source_scenario df_loads s table g = .error msg := by
  unfold site_to_source_scenario
  rcases hge : get_emissions_data s table with e | rows
  · exact ⟨e, rfl⟩
  · simp only [except_bind_ok]
    rcases hm : rows.mapM (fun r =>
      (blended_rate s.emission_type s.shortrun_weighting r).map
        (fun q => (r, q))) with e | rated
    · exact ⟨e, except_bind_error e _⟩
    · refine ⟨"KeyError: Columns not found: lrmer_co2e, srmer_co2e", ?_⟩
      simp only [except_bind_ok]
      rw [if_neg (by decide)]

/-- C6: site_to_source never produces the per-hour emissions table the
claim describes: for every input, the groupby column selection names the
columns lrmer_co2e and srmer_co2e, which the canonical StandardEmissions
frame built by get_emissions_data does not have, so the call raises
(KeyError) before any emission column is computed. -/
theorem c6_site_to_source_always_raises (df_loads : List SiteEnergyRow)
    (metadata : List EmissionScenario) (table : List RawEmissionRow)
    (gas_rate : ℚ) :
    ∃ msg, site_to_source df_loads metadata table gas_rate = .error msg := by
  cases metadata with
  | nil => exact ⟨"ValueError: No objects to concatenate", rfl⟩
  | cons s rest =>
    obtain ⟨msg, hmsg⟩ := site_to_source_scenario_errors df_loads s table gas_rate
    refine ⟨msg, ?_⟩
    show (if (s :: rest).isEmpty then _ else _) = _
    rw [if_neg (by simp)]
    rw [List.map_cons, List.mapM_cons]
    have hfind : (s :: rest).find? (fun t => t.em_scen_id == s.em_scen_id) = some s := by
      simp [List.find?]
    rw [hfind]
    show ((site_to_source_scenario df_loads s table gas_rate >>= _) >>= _) = _
    rw [hmsg]
    simp only [except_bind_error]

/-! ## Claim C9 -/

/-- C9 counterexample: with sizing mode num_of_units and configured value
0, dispatch uses one unit (the source takes max(1, ceil(v))), with nonzero
capacity and served load — not the zero units the claim predicts from
ceil(0) with a floor of 0. -/
theorem c9_zero_units_counterexample :
    (loads_to_site_energy loadHeat demoLib ["s_awhp0"]).map
      (fun rows => rows.map (fun r => (r.awhp_num_h, r.awhp_cap_h_W, r.awhp_hhw_W))) =
      .ok [(some 1, some 9000, some 9000)] ∧
    ((⌈(0 : ℚ)⌉ : ℤ) : ℚ) = 0 := by
  constructor
  · decide
  · decide

/-- C9 amended: for sizing mode num_of_units the AWHP unit count used by
dispatch (and recorded in every output row) is max(1, ceil(v)) — a floor
of one, not zero; in particular a configured value of 0 yields one
unit. -/
theorem c9_num_of_units_floor_one (load : List LoadRow)
    (lib : EquipmentLibrary) (id : String) (scen : EquipmentScenario)
    (rows : List SiteRow)
    (hscen : lib.get_scenario id = some scen)
    (hawhp : optStrTruthy scen.awhp = true)
    (hmode : scen.awhp_sizing_mode = some SizingMode.num_of_units)
    (hok : loads_to_site_energy load lib [id] = .ok rows) :
    ∀ r ∈ rows, r.awhp_num_h =
      some ((max 1 ⌈scen.awhp_sizing_value⌉ : ℤ) : ℚ) := by
  obtain ⟨chl', early, hds⟩ := loads_single_shape hok
  obtain ⟨scen0, rows1, rows2, num, rows3, rows5, rows6, hgs, h1, h2, h3, h5,
    h6, hout⟩ := dispatch_scenario_ok_shape hds
  rw [hscen] at hgs
  injection hgs with hgs
  subst hgs
  rcases phase2_ok_shape h2 with ⟨hf, _⟩ |
    ⟨aw, capF, copF, _, _, _, _, _, hnum, hrows2⟩
  · rw [hawhp] at hf
    cases hf
  · have hnumv := hnum hmode
    have hall2 : ∀ r ∈ rows2, r.awhp_num_h =
        some ((max 1 ⌈scen.awhp_sizing_value⌉ : ℤ) : ℚ) := by
      subst hrows2
      intro r hr
      rcases List.mem_map.mp hr with ⟨r0, hr0, rfl⟩
      show some num = _
      rw [hnumv]
    have hpres := late_phases_preserve (fun r => r.awhp_num_h) round4O
      (fun _ _ => rfl) (fun _ => rfl) (fun _ _ _ _ => rfl) (fun _ _ _ => rfl)
      (fun _ _ => rfl) (fun _ => rfl) (fun _ _ _ => rfl)
      h3 h5 h6 hout hall2
    intro r hr
    rcases hpres r hr with h | h
    · exact h
    · have h2 : r.awhp_num_h =
          round4O (some ((max 1 ⌈scen.awhp_sizing_value⌉ : ℤ) : ℚ)) := h
      rw [h2]
      show some (round4 _) = _
      rw [round4_intCast]

/-- Witness for C9 on the concrete scenario with num_of_units sizing and
value 0: the recorded unit count is one in every output row. -/
theorem c9_num_of_units_floor_one_witness :
    ∃ rows, loads_to_site_energy loadHeat demoLib ["s_awhp0"] = .ok rows ∧
      ∀ r ∈ rows, r.awhp_num_h = some 1 := by
  rcases hres : loads_to_site_energy loadHeat demoLib ["s_awhp0"] with e | rows
  · have hok : exceptIsOk (loads_to_site_energy loadHeat demoLib ["s_awhp0"]) =
        true := by decide
    rw [hres] at hok
    simp [exceptIsOk] at hok
  · refine ⟨rows, rfl, ?_⟩
    have h := c9_num_of_units_floor_one loadHeat demoLib "s_awhp0" scenAwhp0
      rows (by decide) (by decide) (by decide) hres
    intro r hr
    rw [h r hr]
    decide

/-! ## Claim C7 -/

/-- C7 counterexample: scenario s_chl_nodata configures a chiller whose
equipment record has no performance data at all (no efficiency and no COP
curve), yet the call completes normally, serving the whole cooling
remainder at the default COP 5 — no configuration error is raised for the
chiller role. -/
theorem c7_chiller_without_efficiency_not_an_error :
    (loads_to_site_energy loadCool demoLib ["s_chl_nodata"]).map
      (fun rows => rows.map (fun r =>
        (r.chiller_cop, r.chiller_chw_W, r.elec_chiller_Wh, r.eq_scen_id))) =
      .ok [(some 5, some 10, some 2, some "s_chl_nodata")] := by
  decide

/-- C7 amended: a heat-recovery unit without a PLR curve, an AWHP without a
COP curve or any capacity information, and a boiler without a positive
efficiency do make the call raise — a successful call certifies that each
of those active roles had the data its phase requires.  The chiller role is
the exception: a configured chiller with no positive efficiency and no COP
curve raises nothing, and the call completes with every output row's
chiller COP either untouched or set to the default 5. -/
theorem c7_missing_performance_data :
    (∀ (load : List LoadRow) (lib : EquipmentLibrary) (id : String)
       (scen : EquipmentScenario) (rows : List SiteRow) (hr : Equipment),
      lib.get_scenario id = some scen →
      optStrTruthy scen.hr_wwhp = true →
      lib.get_equipment (scen.hr_wwhp.getD "") = some hr →
      loads_to_site_energy load lib [id] = .ok rows →
      ∃ plr, _heat_recovery_plr_curve hr = .ok plr ∧ plr ≠ []) ∧
    (∀ (load : List LoadRow) (lib : EquipmentLibrary) (id : String)
       (scen : EquipmentScenario) (rows : List SiteRow) (aw : Equipment),
      lib.get_scenario id = some scen →
      optStrTruthy scen.awhp = true →
      lib.get_equipment (scen.awhp.getD "") = some aw →
      loads_to_site_energy load lib [id] = .ok rows →
      (∃ capF, _per_unit_heating_capacity_W aw = .ok capF) ∧
      (∃ copF, _per_unit_heating_cop aw = .ok (some copF))) ∧
    (∀ (load : List LoadRow) (lib : EquipmentLibrary) (id : String)
       (scen : EquipmentScenario) (rows : List SiteRow) (blr : Equipment),
      lib.get_scenario id = some scen →
      optStrTruthy scen.boiler = true →
      lib.get_equipment (scen.boiler.getD "") = some blr →
      loads_to_site_energy load lib [id] = .ok rows →
      ∃ eff, _constant_heating_efficiency blr = .ok (some eff) ∧ 0 < eff) ∧
    (∀ (load : List LoadRow) (lib : EquipmentLibrary) (id : String)
       (scen : EquipmentScenario) (chl : Equipment),
      lib.get_scenario id = some scen →
      optStrTruthy scen.hr_wwhp = false →
      optStrTruthy scen.awhp = false →
      optStrTruthy scen.boiler = false →
      optStrTruthy scen.chiller = true →
      lib.get_equipment (scen.chiller.getD "") = some chl →
      (_constant_cooling_efficiency chl = .ok none ∨
        ∃ e, _constant_cooling_efficiency chl = .ok (some e) ∧ e ≤ 0) →
      _per_unit_cooling_cop chl = .ok none →
      ∃ rows, loads_to_site_energy load lib [id] = .ok rows ∧
        ∀ r ∈ rows, r.chiller_cop = none ∨ r.chiller_cop = some 5) := by
  refine ⟨?_, ?_, ?_, ?_⟩
  · intro load lib id scen rows hr hgs hhr hge hok
    obtain ⟨chl', early, hds⟩ := loads_single_shape hok
    obtain ⟨scen0, rows1, rows2, num, rows3, rows5, rows6, hgs0, h1, h2, h3,
      h5, h6, hout⟩ := dispatch_scenario_ok_shape hds
    rw [hgs] at hgs0
    injection hgs0 with hgs0
    subst hgs0
    rcases phase1_ok_shape h1 with ⟨hf, _⟩ | ⟨hr2, plr, _, hge2, hplr, hne, _⟩
    · rw [hhr] at hf
      cases hf
    · rw [hge] at hge2
      injection hge2 with hge2
      subst hge2
      exact ⟨plr, hplr, hne⟩
  · intro load lib id scen rows aw hgs haw hge hok
    obtain ⟨chl', early, hds⟩ := loads_single_shape hok
    obtain ⟨scen0, rows1, rows2, num, rows3, rows5, rows6, hgs0, h1, h2, h3,
      h5, h6, hout⟩ := dispatch_scenario_ok_shape hds
    rw [hgs] at hgs0
    injection hgs0 with hgs0
    subst hgs0
    rcases phase2_ok_shape h2 with ⟨hf, _⟩ |
      ⟨aw2, capF, copF, _, hge2, hcap, hcop, _⟩
    · rw [haw] at hf
      cases hf
    · rw [hge] at hge2
      injection hge2 with hge2
      subst hge2
      exact ⟨⟨capF, hcap⟩, ⟨copF, hcop⟩⟩
  · intro load lib id scen rows blr hgs hbo hge hok
    obtain ⟨chl', early, hds⟩ := loads_single_shape hok
    obtain ⟨scen0, rows1, rows2, num, rows3, rows5, rows6, hgs0, h1, h2, h3,
      h5, h6, hout⟩ := dispatch_scenario_ok_shape hds
    rw [hgs] at hgs0
    injection hgs0 with hgs0
    subst hgs0
    rcases phase3_ok_shape h3 with ⟨hf, _⟩ | ⟨blr2, eff, _, hge2, heff, hpos, _⟩
    · rw [hbo] at hf
      cases hf
    · rw [hge] at hge2
      injection hge2 with hge2
      subst hge2
      exact ⟨eff, heff, hpos⟩
  · intro load lib id scen chl hgs hhr haw hbo htr hge heff hcurve
    rcases @phase6_fallback_cop5 lib scen (phase4 (load.map initRow)) none chl
      htr hge heff hcurve with h6 | h6
    · have hds := dispatch_scenario_eval hgs hhr haw hbo h6
      have hok := loads_single_eval hds
      refine ⟨(phase4 (load.map initRow)).map (tagRow id scen.eq_scen_name),
        hok, ?_⟩
      intro r hrm
      rcases List.mem_map.mp hrm with ⟨r0, hr0, rfl⟩
      left
      show r0.chiller_cop = none
      rcases phase4_shape (load.map initRow) with ⟨_, he⟩ | ⟨_, he⟩ <;>
        rw [he] at hr0
      · rcases List.mem_map.mp hr0 with ⟨r1, hr1, rfl⟩
        rcases List.mem_map.mp hr1 with ⟨lr, _, rfl⟩
        rfl
      · rcases List.mem_map.mp hr0 with ⟨lr, _, rfl⟩
        rfl
    · have hds := dispatch_scenario_eval hgs hhr haw hbo h6
      have hok := loads_single_eval hds
      refine ⟨_, hok, ?_⟩
      intro r hrm
      rcases List.mem_map.mp hrm with ⟨r0, hr0, rfl⟩
      rcases List.mem_map.mp hr0 with ⟨r1, hr1, rfl⟩
      rcases List.mem_map.mp hr1 with ⟨r2, _, rfl⟩
      right
      show round4O (some 5) = some 5
      decide

/-- Witness for C7: the chiller conjunct applied at the concrete fixtures —
scenario s_chl_nodata whose chiller record chl_nodata has neither an
efficiency nor a COP curve; the call succeeds and every row carries COP 5
or leaves the chiller column untouched. -/
theorem c7_missing_performance_data_witness :
    ∃ rows, loads_to_site_energy loadCool demoLib ["s_chl_nodata"] = .ok rows ∧
      ∀ r ∈ rows, r.chiller_cop = none ∨ r.chiller_cop = some 5 :=
  c7_missing_performance_data.2.2.2 loadCool demoLib "s_chl_nodata"
    scenChillerNoData chillerNoDataEq (by decide) (by decide) (by decide)
    (by decide) (by decide) (by decide) (Or.inl (by decide)) (by rfl)

/-! ## Claim C10 -/

/-- C10 counterexample: on scenario s_full (HR WWHP, one AWHP unit and a
chiller, all charged with 876 g of refrigerant at GWP 10) the dispatch
output's AWHP refrigerant-leakage-potential column is 0, not the formula
value 1e-6 — the chiller scalar path's df.round(4) rounds it away — while
the HR WWHP column is 0.001; the recorded ratio is therefore not the
claimed factor of 1000. -/
theorem c10_round4_breaks_recorded_ratio :
    (loads_to_site_energy loadBoth demoLib ["s_full"]).map
      (fun rows => rows.map (fun r =>
        (r.awhp_refrigerant_gwp, r.hr_wwhp_refrigerant_gwp,
         r.chiller_refrigerant_gwp))) =
      .ok [(some 0, some (1/1000), some (1/1000))] ∧
    (10 : ℚ) * (876 * 0.001 * 1 / 8760) / 1000 ≠ 0 ∧
    ¬ ((1/1000 : ℚ) = 1000 * 0) := by
  refine ⟨by decide, by decide, by decide⟩

/-- C10 amended: at recording time the formulas are exactly as claimed —
the AWHP column is gwp·(weight·0.001·num/8760)/1000 while the HR WWHP and
chiller columns are gwp·(weight·0.001/8760) with no division by 1000, so
for identical charge, GWP and one unit the recorded AWHP potential is
exactly 1000 times smaller; but in the dispatch output the AWHP column is
only the formula value or its round-to-4-decimals image, because the
chiller scalar path applies df.round(4) to the whole frame. -/
theorem c10_refrigerant_gwp_formulas :
    (∀ (aw : Equipment) (capF copF : ℚ → ℚ) (num : ℚ) (r : SiteRow),
      optRatTruthy aw.refrigerant_weight_g = true →
      optRatTruthy aw.refrigerant_gwp = true →
      (phase2Row aw capF copF num r).awhp_refrigerant_gwp =
        some (aw.refrigerant_gwp.getD 0 *
          (aw.refrigerant_weight_g.getD 0 * 0.001 * num / 8760) / 1000)) ∧
    (∀ (hr : Equipment) (plr : Curve) (r : SiteRow),
      optRatTruthy hr.refrigerant_weight_g = true →
      optRatTruthy hr.refrigerant_gwp = true →
      (phase1Row hr plr r).hr_wwhp_refrigerant_gwp =
        some (hr.refrigerant_gwp.getD 0 *
          (hr.refrigerant_weight_g.getD 0 * 0.001 / 8760))) ∧
    (∀ (chl : Equipment) (cop : ℚ) (r : SiteRow),
      optRatTruthy chl.refrigerant_weight_g = true →
      optRatTruthy chl.refrigerant_gwp = true →
      (phase6ScalarRow chl cop r).chiller_refrigerant_gwp =
        some (chl.refrigerant_gwp.getD 0 *
          (chl.refrigerant_weight_g.getD 0 * 0.001 / 8760))) ∧
    (∀ g w : ℚ,
      g * (w * 0.001 / 8760) = 1000 * (g * (w * 0.001 * 1 / 8760) / 1000)) ∧
    (∀ (load : List LoadRow) (lib : EquipmentLibrary) (id : String)
       (scen : EquipmentScenario) (rows : List SiteRow) (aw : Equipment),
      lib.get_scenario id = some scen →
      optStrTruthy scen.awhp = true →
      lib.get_equipment (scen.awhp.getD "") = some aw →
      optRatTruthy aw.refrigerant_weight_g = true →
      optRatTruthy aw.refrigerant_gwp = true →
      loads_to_site_energy load lib [id] = .ok rows →
      ∀ r ∈ rows, ∃ num : ℚ,
        r.awhp_refrigerant_gwp = some (aw.refrigerant_gwp.getD 0 *
          (aw.refrigerant_weight_g.getD 0 * 0.001 * num / 8760) / 1000) ∨
        r.awhp_refrigerant_gwp = round4O (some (aw.refrigerant_gwp.getD 0 *
          (aw.refrigerant_weight_g.getD 0 * 0.001 * num / 8760) / 1000))) := by
  refine ⟨?_, ?_, ?_, ?_, ?_⟩
  · intro aw capF copF num r hw hg
    show some (if optRatTruthy aw.refrigerant_gwp = true then
        aw.refrigerant_gwp.getD 0 *
          (if optRatTruthy aw.refrigerant_weight_g = true then
            aw.refrigerant_weight_g.getD 0 * 0.001 * num / 8760 else 0) / 1000
      else 0) = _
    rw [if_pos hg, if_pos hw]
  · intro hr plr r hw hg
    show some (if optRatTruthy hr.refrigerant_gwp = true then
        hr.refrigerant_gwp.getD 0 *
          (if optRatTruthy hr.refrigerant_weight_g = true then
            hr.refrigerant_weight_g.getD 0 * 0.001 / 8760 else 0)
      else 0) = _
    rw [if_pos hg, if_pos hw]
  · intro chl cop r hw hg
    show some (if optRatTruthy chl.refrigerant_gwp = true then
        chl.refrigerant_gwp.getD 0 *
          (if optRatTruthy chl.refrigerant_weight_g = true then
            chl.refrigerant_weight_g.getD 0 * 0.001 / 8760 else 0)
      else 0) = _
    rw [if_pos hg, if_pos hw]
  · intro g w
    ring
  · intro load lib id scen rows aw hgs haw hge hw hg hok
    obtain ⟨chl', early, hds⟩ := loads_single_shape hok
    obtain ⟨scen0, rows1, rows2, num, rows3, rows5, rows6, hgs0, h1, h2, h3,
      h5, h6, hout⟩ := dispatch_scenario_ok_shape hds
    rw [hgs] at hgs0
    injection hgs0 with hgs0
    subst hgs0
    rcases phase2_ok_shape h2 with ⟨hf, _⟩ |
      ⟨aw2, capF, copF, _, hge2, hcap, hcop, _, _, hrows2⟩
    · rw [haw] at hf
      cases hf
    · rw [hge] at hge2
      injection hge2 with hge2
      subst hge2
      have hall2 : ∀ r ∈ rows2, r.awhp_refrigerant_gwp =
          some (aw.refrigerant_gwp.getD 0 *
            (aw.refrigerant_weight_g.getD 0 * 0.001 * num / 8760) / 1000) := by
        subst hrows2
        intro r hrm
        rcases List.mem_map.mp hrm with ⟨r0, hr0, rfl⟩
        show some (if optRatTruthy aw.refrigerant_gwp = true then
            aw.refrigerant_gwp.getD 0 *
              (if optRatTruthy aw.refrigerant_weight_g = true then
                aw.refrigerant_weight_g.getD 0 * 0.001 * num / 8760 else 0) /
                1000
          else 0) = _
        rw [if_pos hg, if_pos hw]
      have hpres := late_phases_preserve (fun r => r.awhp_refrigerant_gwp)
        round4O (fun _ _ => rfl) (fun _ => rfl) (fun _ _ _ _ => rfl)
        (fun _ _ _ => rfl) (fun _ _ => rfl) (fun _ => rfl) (fun _ _ _ => rfl)
        h3 h5 h6 hout hall2
      intro r hrm
      rcases hpres r hrm with h | h
      · exact ⟨num, Or.inl h⟩
      · exact ⟨num, Or.inr h⟩

/-- Witness for C10: the dispatch conjunct applied to scenario s_awhp0
(one AWHP unit, 876 g of R410A at GWP 10) on the heating-only load; every
output row's recorded AWHP leakage potential is the /1000 formula or its
rounding. -/
theorem c10_refrigerant_gwp_formulas_witness :
    ∃ rows, loads_to_site_energy loadHeat demoLib ["s_awhp0"] = .ok rows ∧
      ∀ r ∈ rows, ∃ num : ℚ,
        r.awhp_refrigerant_gwp = some (awhpEq.refrigerant_gwp.getD 0 *
          (awhpEq.refrigerant_weight_g.getD 0 * 0.001 * num / 8760) / 1000) ∨
        r.awhp_refrigerant_gwp = round4O (some (awhpEq.refrigerant_gwp.getD 0 *
          (awhpEq.refrigerant_weight_g.getD 0 * 0.001 * num / 8760) / 1000)) := by
  rcases hres : loads_to_site_energy loadHeat demoLib ["s_awhp0"] with e | rows
  · have hok : exceptIsOk (loads_to_site_energy loadHeat demoLib ["s_awhp0"]) =
        true := by decide
    rw [hres] at hok
    simp [exceptIsOk] at hok
  · exact ⟨rows, rfl, c10_refrigerant_gwp_formulas.2.2.2.2 loadHeat demoLib
      "s_awhp0" scenAwhp0 rows awhpEq (by decide) (by decide) (by decide)
      (by decide) (by decide) hres⟩

/-! ## Claim C8 -/

theorem round4O_zero : round4O (some 0) = some 0 := by
  show some (round4 0) = some 0
  rw [round4_zero]

/-- Inversion of the heating capacity builder: a successful result always
went through _capacity_constraints, whose closure zeroes the capacity
outside the declared operating-temperature bounds. -/
theorem heating_capacity_inv {e : Equipment} {capF : ℚ → ℚ}
    (h : _per_unit_heating_capacity_W e = .ok capF) :
    ∃ p c, e.performance_heating = some p ∧ p.constraints = some c ∧
      ∀ t, c.max_temp_C < t ∨ t < c.min_temp_C → capF t = 0 := by
  unfold _per_unit_heating_capacity_W at h
  obtain ⟨base, hbase, h⟩ := except_bind_eq_ok h
  obtain ⟨constrain, hcon, h⟩ := except_bind_eq_ok h
  injection h with h
  unfold _capacity_constraints at hcon
  rw [if_pos rfl] at hcon
  split at hcon
  · cases hcon
  · rename_i p hp
    split at hcon
    · cases hcon
    · rename_i c hc
      injection hcon with hcon
      refine ⟨p, c, hp, hc, ?_⟩
      intro t ht
      rw [← h]
      show constrain t (base t) = 0
      rw [← hcon]
      show (if t > c.max_temp_C ∨ t < c.min_temp_C then (0 : ℚ) else base t) = 0
      exact if_pos ht

/-- Cooling analogue of heating_capacity_inv. -/
theorem cooling_capacity_inv {e : Equipment} {capF : ℚ → ℚ}
    (h : _per_unit_cooling_capacity_W e = .ok capF) :
    ∃ p c, e.performance_cooling = some p ∧ p.constraints = some c ∧
      ∀ t, c.max_temp_C < t ∨ t < c.min_temp_C → capF t = 0 := by
  unfold _per_unit_cooling_capacity_W at h
  obtain ⟨base, hbase, h⟩ := except_bind_eq_ok h
  obtain ⟨constrain, hcon, h⟩ := except_bind_eq_ok h
  injection h with h
  unfold _capacity_constraints at hcon
  rw [if_neg (by decide)] at hcon
  split at hcon
  · cases hcon
  · rename_i p hp
    split at hcon
    · cases hcon
    · rename_i c hc
      injection hcon with hcon
      refine ⟨p, c, hp, hc, ?_⟩
      intro t ht
      rw [← h]
      show constrain t (base t) = 0
      rw [← hcon]
      show (if t > c.max_temp_C ∨ t < c.min_temp_C then (0 : ℚ) else base t) = 0
      exact if_pos ht

/-- Phase 1 never overdraws the heating remainder: the heat it serves is at
most the remainder it started from. -/
theorem phase1Row_hhw_rem_nonneg (hr : Equipment) (plr : Curve) (r : SiteRow)
    (h : 0 ≤ r.hhw_rem_W) : 0 ≤ (phase1Row hr plr r).hhw_rem_W := by
  have hform : (phase1Row hr plr r).hhw_rem_W =
      r.hhw_rem_W - (if min (1 * listMax (plr.map Prod.fst))
          (min r.hhw_rem_W
            (r.chw_rem_W / (1 - 1 / listMax (plr.map Prod.snd)))) >
          listMin (plr.map Prod.fst) then
        min (1 * listMax (plr.map Prod.fst))
          (min r.hhw_rem_W
            (r.chw_rem_W / (1 - 1 / listMax (plr.map Prod.snd))))
      else 0) := rfl
  rw [hform]
  split
  · have h1 : min (1 * listMax (plr.map Prod.fst))
        (min r.hhw_rem_W
          (r.chw_rem_W / (1 - 1 / listMax (plr.map Prod.snd)))) ≤
        r.hhw_rem_W :=
      le_trans (min_le_right _ _) (min_le_left _ _)
    linarith
  · linarith

/-- With zero per-unit capacity at the hour's temperature, the phase-2 row
records zero total capacity, zero served heat and zero electricity. -/
theorem phase2Row_zero_cap (aw : Equipment) (capF copF : ℚ → ℚ) (num : ℚ)
    (r : SiteRow) (hcap : capF r.t_out_C = 0) (hrem : 0 ≤ r.hhw_rem_W) :
    (phase2Row aw capF copF num r).awhp_cap_h_W = some 0 ∧
    (phase2Row aw capF copF num r).awhp_hhw_W = some 0 ∧
    (phase2Row aw capF copF num r).elec_awhp_h_Wh = some 0 := by
  refine ⟨?_, ?_, ?_⟩
  · show some (capF r.t_out_C * num) = some 0
    rw [hcap, zero_mul]
  · show some (min r.hhw_rem_W (capF r.t_out_C * num)) = some 0
    rw [hcap, zero_mul, min_eq_right hrem]
  · show some (min r.hhw_rem_W (capF r.t_out_C * num) / copF r.t_out_C) =
      some 0
    rw [hcap, zero_mul, min_eq_right hrem, zero_div]

/-- C8: the declared min/max operating outdoor temperatures are a hard
cutoff.  Per-unit heating and cooling capacity builders zero the capacity
for any hour strictly outside [min, max], whatever the capacity curve alone
would interpolate to; the AWHP cooling row then records zero capacity,
served load and electricity at such an hour (given a non-negative cooling
remainder and a well-defined COP); and a successful single-hour dispatch of
a scenario whose AWHP faces an out-of-range temperature records zero AWHP
heating capacity, served load and electricity in every output row. -/
theorem c8_temperature_constraints_zero_capacity :
    (∀ (e : Equipment) (capF : ℚ → ℚ) (p : Performance) (c : Constraints),
      _per_unit_heating_capacity_W e = .ok capF →
      e.performance_heating = some p → p.constraints = some c →
      ∀ t, c.max_temp_C < t ∨ t < c.min_temp_C → capF t = 0) ∧
    (∀ (e : Equipment) (capF : ℚ → ℚ) (p : Performance) (c : Constraints),
      _per_unit_cooling_capacity_W e = .ok capF →
      e.performance_cooling = some p → p.constraints = some c →
      ∀ t, c.max_temp_C < t ∨ t < c.min_temp_C → capF t = 0) ∧
    (∀ (capF copF : ℚ → ℚ) (num : ℚ) (r : SiteRow),
      capF r.t_out_C = 0 → 0 ≤ r.chw_rem_W → copF r.t_out_C ≠ 0 →
      (phase5Row capF copF num r).awhp_cap_c_W = some 0 ∧
      (phase5Row capF copF num r).awhp_chw_W = some 0 ∧
      (phase5Row capF copF num r).elec_awhp_c_Wh = some 0) ∧
    (∀ (lr : LoadRow) (lib : EquipmentLibrary) (id : String)
       (scen : EquipmentScenario) (rows : List SiteRow) (aw : Equipment)
       (capF copF : ℚ → ℚ) (p : Performance) (c : Constraints),
      lib.get_scenario id = some scen →
      optStrTruthy scen.awhp = true →
      lib.get_equipment (scen.awhp.getD "") = some aw →
      _per_unit_heating_capacity_W aw = .ok capF →
      _per_unit_heating_cop aw = .ok (some copF) →
      aw.performance_heating = some p → p.constraints = some c →
      c.max_temp_C < lr.t_out_C ∨ lr.t_out_C < c.min_temp_C →
      copF lr.t_out_C ≠ 0 →
      0 ≤ lr.heating_W →
      loads_to_site_energy [lr] lib [id] = .ok rows →
      ∀ r ∈ rows, r.awhp_cap_h_W = some 0 ∧ r.awhp_hhw_W = some 0 ∧
        r.elec_awhp_h_Wh = some 0) := by
  refine ⟨?_, ?_, ?_, ?_⟩
  · intro e capF p c hok hp hc t ht
    obtain ⟨p2, c2, hp2, hc2, hz⟩ := heating_capacity_inv hok
    rw [hp] at hp2
    injection hp2 with hp2
    subst hp2
    rw [hc] at hc2
    injection hc2 with hc2
    subst hc2
    exact hz t ht
  · intro e capF p c hok hp hc t ht
    obtain ⟨p2, c2, hp2, hc2, hz⟩ := cooling_capacity_inv hok
    rw [hp] at hp2
    injection hp2 with hp2
    subst hp2
    rw [hc] at hc2
    injection hc2 with hc2
    subst hc2
    exact hz t ht
  · intro capF copF num r hcap hrem _
    have hserved : (if r.awhp_hhw_W == some 0 then
        min r.chw_rem_W (capF r.t_out_C * num) else 0) = 0 := by
      split
      · rw [hcap, zero_mul, min_eq_right hrem]
      · rfl
    refine ⟨?_, ?_, ?_⟩
    · show some (capF r.t_out_C * num) = some 0
      rw [hcap, zero_mul]
    · show some (if r.awhp_hhw_W == some 0 then
        min r.chw_rem_W (capF r.t_out_C * num) else 0) = some 0
      rw [hserved]
    · show some ((if r.awhp_hhw_W == some 0 then
        min r.chw_rem_W (capF r.t_out_C * num) else 0) / copF r.t_out_C) =
        some 0
      rw [hserved, zero_div]
  · intro lr lib id scen rows aw capF copF p c hgs haw hge hcapok hcopok hp
      hcst htout _ hload hok
    have hcapt : capF lr.t_out_C = 0 := by
      obtain ⟨p2, c2, hp2, hc2, hz⟩ := heating_capacity_inv hcapok
      rw [hp] at hp2
      injection hp2 with hp2
      subst hp2
      rw [hcst] at hc2
      injection hc2 with hc2
      subst hc2
      exact hz lr.t_out_C htout
    obtain ⟨chl', early, hds⟩ := loads_single_shape hok
    obtain ⟨scen0, rows1, rows2, num, rows3, rows5, rows6, hgs0, h1, h2, h3,
      h5, h6, hout⟩ := dispatch_scenario_ok_shape hds
    rw [hgs] at hgs0
    injection hgs0 with hgs0
    subst hgs0
    rcases phase2_ok_shape h2 with ⟨hf, _⟩ |
      ⟨aw2, capF2, copF2, _, hge2, hcap2, hcop2, _, _, hrows2⟩
    · rw [haw] at hf
      cases hf
    · rw [hge] at hge2
      injection hge2 with hge2
      subst hge2
      rw [hcapok] at hcap2
      injection hcap2 with hcap2
      subst hcap2
      have hall1 : ∀ r1 ∈ rows1, r1.t_out_C = lr.t_out_C ∧
          0 ≤ r1.hhw_rem_W := by
        rcases phase1_ok_shape h1 with ⟨_, he1⟩ | ⟨hr, plr, _, _, _, _, he1⟩
        · subst he1
          intro r1 hr1
          rcases List.mem_map.mp hr1 with ⟨lr2, hlr2, rfl⟩
          rcases List.mem_singleton.mp hlr2
          exact ⟨rfl, hload⟩
        · subst he1
          intro r1 hr1
          rcases List.mem_map.mp hr1 with ⟨r0, hr0, rfl⟩
          rcases List.mem_map.mp hr0 with ⟨lr2, hlr2, rfl⟩
          rcases List.mem_singleton.mp hlr2
          exact ⟨rfl, phase1Row_hhw_rem_nonneg hr plr (initRow lr) hload⟩
      have hall2 : ∀ r ∈ rows2,
          (r.awhp_cap_h_W, r.awhp_hhw_W, r.elec_awhp_h_Wh) =
            ((some 0 : Option ℚ), (some 0 : Option ℚ), (some 0 : Option ℚ)) := by
        subst hrows2
        intro r hrm
        rcases List.mem_map.mp hrm with ⟨r1, hr1, rfl⟩
        obtain ⟨ht1, hrem1⟩ := hall1 r1 hr1
        obtain ⟨ha, hb, hc⟩ := phase2Row_zero_cap aw capF copF2 num r1
          (by rw [ht1]; exact hcapt) hrem1
        rw [ha, hb, hc]
      have hpres := late_phases_preserve
        (fun r => (r.awhp_cap_h_W, r.awhp_hhw_W, r.elec_awhp_h_Wh))
        (fun t => (round4O t.1, round4O t.2.1, round4O t.2.2))
        (fun _ _ => rfl) (fun _ => rfl) (fun _ _ _ _ => rfl)
        (fun _ _ _ => rfl) (fun _ _ => rfl) (fun _ => rfl) (fun _ _ _ => rfl)
        h3 h5 h6 hout hall2
      intro r hrm
      rcases hpres r hrm with h | h
      · have hf : (r.awhp_cap_h_W, r.awhp_hhw_W, r.elec_awhp_h_Wh) =
            ((some 0 : Option ℚ), (some 0 : Option ℚ), (some 0 : Option ℚ)) := h
        exact ⟨congrArg (fun t => t.1) hf, congrArg (fun t => t.2.1) hf,
          congrArg (fun t => t.2.2) hf⟩
      · have hf : (r.awhp_cap_h_W, r.awhp_hhw_W, r.elec_awhp_h_Wh) =
            (round4O (some 0), round4O (some 0), round4O (some 0)) := h
        rw [round4O_zero] at hf
        exact ⟨congrArg (fun t => t.1) hf, congrArg (fun t => t.2.1) hf,
          congrArg (fun t => t.2.2) hf⟩

/-- Witness for C8: the AWHP fixture declares max_temp_C = 30; a single
hour at 40 °C yields zero AWHP capacity, served heat and electricity in the
dispatch output, even though the capacity curve alone would clamp to
10000 W. -/
theorem c8_temperature_constraints_zero_capacity_witness :
    ∃ rows, loads_to_site_energy
        [{ t_out_C := 40, heating_W := 10000, cooling_W := 0 }] demoLib
        ["s_awhp0"] = .ok rows ∧
      ∀ r ∈ rows, r.awhp_cap_h_W = some 0 ∧ r.awhp_hhw_W = some 0 ∧
        r.elec_awhp_h_Wh = some 0 := by
  rcases hres : loads_to_site_energy
      [{ t_out_C := 40, heating_W := 10000, cooling_W := 0 }] demoLib
      ["s_awhp0"] with e | rows
  · have hok : exceptIsOk (loads_to_site_energy
        [{ t_out_C := 40, heating_W := 10000, cooling_W := 0 }] demoLib
        ["s_awhp0"]) = true := by decide
    rw [hres] at hok
    simp [exceptIsOk] at hok
  · refine ⟨rows, rfl, ?_⟩
    exact c8_temperature_constraints_zero_capacity.2.2.2
      { t_out_C := 40, heating_W := 10000, cooling_W := 0 } demoLib "s_awhp0"
      scenAwhp0 rows awhpEq
      ((_per_unit_heating_capacity_W awhpEq).toOption.getD (fun _ => 0))
      (((_per_unit_heating_cop awhpEq).toOption.getD none).getD (fun _ => 0))
      { cap_curve := some [(-10, 6000), (10, 10000)],
        cop_curve := some [(-10, 2), (10, 4)],
        constraints := some { min_temp_C := -15, max_temp_C := 30 } }
      { min_temp_C := -15, max_temp_C := 30 }
      (by decide) (by decide) (by decide) (by rfl) (by rfl) (by rfl) (by rfl)
      (by decide) (by decide) (by decide) hres

/-! ## Claim C1: conservation through the six phases -/

theorem getD_round4O_close (o : Option ℚ) :
    |(round4O o).getD 0 - o.getD 0| ≤ 1/20000 := by
  cases o with
  | none =>
    show |(0 : ℚ) - 0| ≤ 1/20000
    norm_num
  | some x => exact round4_close x

theorem initRow_inv (lr : LoadRow) (hh : 0 ≤ lr.heating_W)
    (hc : 0 ≤ lr.cooling_W) : Inv (initRow lr) := by
  refine ⟨hh, hc, ?_, ?_⟩
  · show (0 : ℚ) + 0 + 0 + 0 + lr.heating_W = lr.heating_W
    ring
  · show (0 : ℚ) + 0 + 0 + lr.cooling_W = lr.cooling_W
    ring

theorem phase1Row_inv (hr : Equipment) (plr : Curve) (r : SiteRow)
    (hInv : Inv r) (hhn : r.hr_hhw_W = none) (hcn : r.hr_chw_W = none)
    (hne : plr ≠ []) (hdata : ∀ p ∈ plr, 0 ≤ p.1 ∧ 1 < p.2) :
    Inv (phase1Row hr plr r) := by
  obtain ⟨h1, h2, hb1, hb2⟩ := hInv
  obtain ⟨p0, hp0⟩ := List.exists_mem_of_ne_nil plr hne
  have hcopgt : 1 < listMax (plr.map Prod.snd) :=
    lt_of_lt_of_le (hdata p0 hp0).2
      (le_listMax (List.mem_map_of_mem Prod.snd hp0))
  have hcoppos : (0 : ℚ) < listMax (plr.map Prod.snd) :=
    lt_trans one_pos hcopgt
  have hlw : (0 : ℚ) < 1 - 1 / listMax (plr.map Prod.snd) := by
    have hd : 1 / listMax (plr.map Prod.snd) < 1 := by
      rw [div_lt_one hcoppos]
      exact hcopgt
    linarith
  have hmincap : (0 : ℚ) ≤ listMin (plr.map Prod.fst) := by
    refine listMin_nonneg ?_
    intro x hx
    rcases List.mem_map.mp hx with ⟨p, hp, rfl⟩
    exact (hdata p hp).1
  have hcopb : ∀ xi : ℚ, 1 ≤ interp_vector plr xi ∧
      interp_vector plr xi ≤ listMax (plr.map Prod.snd) := by
    intro xi
    refine interp_vector_bounds plr xi 1 (listMax (plr.map Prod.snd)) hne ?_
    intro p hp
    exact ⟨le_of_lt (hdata p hp).2,
      le_listMax (List.mem_map_of_mem Prod.snd hp)⟩
  obtain ⟨H, hHdef⟩ : ∃ H, H = (if min (1 * listMax (plr.map Prod.fst))
        (min r.hhw_rem_W
          (r.chw_rem_W / (1 - 1 / listMax (plr.map Prod.snd)))) >
        listMin (plr.map Prod.fst)
      then min (1 * listMax (plr.map Prod.fst))
        (min r.hhw_rem_W (r.chw_rem_W / (1 - 1 / listMax (plr.map Prod.snd))))
      else 0) := ⟨_, rfl⟩
  obtain ⟨C, hCdef⟩ : ∃ C, C = (if interp_vector plr H > 0
      then H * (1 - 1 / interp_vector plr H) else 0) := ⟨_, rfl⟩
  have e1 : (phase1Row hr plr r).hhw_rem_W = r.hhw_rem_W - H := by
    rw [hHdef]
    rfl
  have e2 : (phase1Row hr plr r).chw_rem_W = r.chw_rem_W - C := by
    rw [hCdef, hHdef]
    rfl
  have e3 : servedH (phase1Row hr plr r) =
      H + r.awhp_hhw_W.getD 0 + r.boiler_hhw_W.getD 0 +
        r.res_hhw_W.getD 0 := by
    rw [hHdef]
    rfl
  have e4 : servedC (phase1Row hr plr r) =
      C + r.awhp_chw_W.getD 0 + r.chiller_chw_W.getD 0 := by
    rw [hCdef, hHdef]
    rfl
  have e5 : (phase1Row hr plr r).hhw_W = r.hhw_W := rfl
  have e6 : (phase1Row hr plr r).chw_W = r.chw_W := rfl
  have hH0 : 0 ≤ H := by
    rw [hHdef]
    split
    · rename_i hcond
      exact le_trans hmincap (le_of_lt hcond)
    · exact le_refl 0
  have hHle : H ≤ r.hhw_rem_W := by
    rw [hHdef]
    split
    · exact le_trans (min_le_right _ _) (min_le_left _ _)
    · exact h1
  have hHle2 : H ≤ r.chw_rem_W / (1 - 1 / listMax (plr.map Prod.snd)) := by
    rw [hHdef]
    split
    · exact le_trans (min_le_right _ _) (min_le_right _ _)
    · exact div_nonneg h2 (le_of_lt hlw)
  have hcopH := hcopb H
  have hcpos : (0 : ℚ) < interp_vector plr H :=
    lt_of_lt_of_le one_pos hcopH.1
  have hCeq : C = H * (1 - 1 / interp_vector plr H) := by
    rw [hCdef, if_pos hcpos]
  have hf0 : (0 : ℚ) ≤ 1 - 1 / interp_vector plr H := by
    have hd : 1 / interp_vector plr H ≤ 1 := by
      rw [div_le_one hcpos]
      exact hcopH.1
    linarith
  have hff : 1 - 1 / interp_vector plr H ≤
      1 - 1 / listMax (plr.map Prod.snd) := by
    have hd : 1 / listMax (plr.map Prod.snd) ≤ 1 / interp_vector plr H :=
      one_div_le_one_div_of_le hcpos hcopH.2
    linarith
  have hCle : C ≤ r.chw_rem_W := by
    rw [hCeq]
    calc H * (1 - 1 / interp_vector plr H) ≤
        (r.chw_rem_W / (1 - 1 / listMax (plr.map Prod.snd))) *
          (1 - 1 / listMax (plr.map Prod.snd)) :=
          mul_le_mul hHle2 hff hf0 (le_trans hH0 hHle2)
      _ = r.chw_rem_W := div_mul_cancel₀ r.chw_rem_W (ne_of_gt hlw)
  refine ⟨?_, ?_, ?_, ?_⟩
  · rw [e1]
    linarith
  · rw [e2]
    linarith
  · rw [e3, e1, e5]
    simp only [servedH, hhn, Option.getD_none] at hb1
    linarith
  · rw [e4, e2, e6]
    simp only [servedC, hcn, Option.getD_none] at hb2
    linarith

theorem phase2Row_inv (aw : Equipment) (capF copF : ℚ → ℚ) (num : ℚ)
    (r : SiteRow) (hInv : Inv r) (han : r.awhp_hhw_W = none) :
    Inv (phase2Row aw capF copF num r) := by
  obtain ⟨h1, h2, hb1, hb2⟩ := hInv
  have e1 : (phase2Row aw capF copF num r).hhw_rem_W =
      r.hhw_rem_W - min r.hhw_rem_W (capF r.t_out_C * num) := rfl
  have e2 : (phase2Row aw capF copF num r).chw_rem_W = r.chw_rem_W := rfl
  have e3 : servedH (phase2Row aw capF copF num r) =
      r.hr_hhw_W.getD 0 + min r.hhw_rem_W (capF r.t_out_C * num) +
        r.boiler_hhw_W.getD 0 + r.res_hhw_W.getD 0 := rfl
  have e4 : servedC (phase2Row aw capF copF num r) = servedC r := rfl
  have e5 : (phase2Row aw capF copF num r).hhw_W = r.hhw_W := rfl
  have e6 : (phase2Row aw capF copF num r).chw_W = r.chw_W := rfl
  have hmle := min_le_left r.hhw_rem_W (capF r.t_out_C * num)
  refine ⟨?_, ?_, ?_, ?_⟩
  · rw [e1]
    linarith
  · rw [e2]
    exact h2
  · rw [e3, e1, e5]
    simp only [servedH, han, Option.getD_none] at hb1
    linarith
  · rw [e4, e2, e6]
    exact hb2

theorem phase3Row_inv (eff : ℚ) (r : SiteRow) (hInv : Inv r)
    (hbn : r.boiler_hhw_W = none) : Inv (phase3Row eff r) := by
  obtain ⟨h1, h2, hb1, hb2⟩ := hInv
  have e1 : (phase3Row eff r).hhw_rem_W = 0 := rfl
  have e2 : (phase3Row eff r).chw_rem_W = r.chw_rem_W := rfl
  have e3 : servedH (phase3Row eff r) =
      r.hr_hhw_W.getD 0 + r.awhp_hhw_W.getD 0 + r.hhw_rem_W +
        r.res_hhw_W.getD 0 := rfl
  have e4 : servedC (phase3Row eff r) = servedC r := rfl
  have e5 : (phase3Row eff r).hhw_W = r.hhw_W := rfl
  have e6 : (phase3Row eff r).chw_W = r.chw_W := rfl
  refine ⟨?_, ?_, ?_, ?_⟩
  · rw [e1]
  · rw [e2]
    exact h2
  · rw [e3, e1, e5]
    simp only [servedH, hbn, Option.getD_none] at hb1
    linarith
  · rw [e4, e2, e6]
    exact hb2

theorem phase4Row_inv (r : SiteRow) (hInv : Inv r)
    (hrn : r.res_hhw_W = none) : Inv (phase4Row r) := by
  obtain ⟨h1, h2, hb1, hb2⟩ := hInv
  have e1 : (phase4Row r).hhw_rem_W = 0 := rfl
  have e2 : (phase4Row r).chw_rem_W = r.chw_rem_W := rfl
  have e3 : servedH (phase4Row r) =
      r.hr_hhw_W.getD 0 + r.awhp_hhw_W.getD 0 + r.boiler_hhw_W.getD 0 +
        r.hhw_rem_W := rfl
  have e4 : servedC (phase4Row r) = servedC r := rfl
  have e5 : (phase4Row r).hhw_W = r.hhw_W := rfl
  have e6 : (phase4Row r).chw_W = r.chw_W := rfl
  refine ⟨?_, ?_, ?_, ?_⟩
  · rw [e1]
  · rw [e2]
    exact h2
  · rw [e3, e1, e5]
    simp only [servedH, hrn, Option.getD_none] at hb1
    linarith
  · rw [e4, e2, e6]
    exact hb2

theorem phase5Row_inv (capF copF : ℚ → ℚ) (num : ℚ) (r : SiteRow)
    (hInv : Inv r) (hcn : r.awhp_chw_W = none) :
    Inv (phase5Row capF copF num r) := by
  obtain ⟨h1, h2, hb1, hb2⟩ := hInv
  have e1 : (phase5Row capF copF num r).hhw_rem_W = r.hhw_rem_W := rfl
  have e2 : (phase5Row capF copF num r).chw_rem_W = r.chw_rem_W -
      (if r.awhp_hhw_W == some 0 then
        min r.chw_rem_W (capF r.t_out_C * num) else 0) := rfl
  have e3 : servedH (phase5Row capF copF num r) = servedH r := rfl
  have e4 : servedC (phase5Row capF copF num r) =
      r.hr_chw_W.getD 0 +
        (if r.awhp_hhw_W == some 0 then
          min r.chw_rem_W (capF r.t_out_C * num) else 0) +
        r.chiller_chw_W.getD 0 := rfl
  have e5 : (phase5Row capF copF num r).hhw_W = r.hhw_W := rfl
  have e6 : (phase5Row capF copF num r).chw_W = r.chw_W := rfl
  have hsle : (if r.awhp_hhw_W == some 0 then
      min r.chw_rem_W (capF r.t_out_C * num) else 0) ≤ r.chw_rem_W := by
    split
    · exact min_le_left _ _
    · exact h2
  refine ⟨?_, ?_, ?_, ?_⟩
  · rw [e1]
    exact h1
  · rw [e2]
    linarith
  · rw [e3, e1, e5]
    exact hb1
  · rw [e4, e2, e6]
    simp only [servedC, hcn, Option.getD_none] at hb2
    linarith

theorem phase6ScalarRow_inv (chl : Equipment) (cop : ℚ) (r : SiteRow)
    (hInv : Inv r) (hchn : r.chiller_chw_W = none) :
    Inv (phase6ScalarRow chl cop r) := by
  obtain ⟨h1, h2, hb1, hb2⟩ := hInv
  have e1 : (phase6ScalarRow chl cop r).hhw_rem_W = r.hhw_rem_W := rfl
  have e2 : (phase6ScalarRow chl cop r).chw_rem_W = 0 := rfl
  have e3 : servedH (phase6ScalarRow chl cop r) = servedH r := rfl
  have e4 : servedC (phase6ScalarRow chl cop r) =
      r.hr_chw_W.getD 0 + r.awhp_chw_W.getD 0 + r.chw_rem_W := rfl
  have e5 : (phase6ScalarRow chl cop r).hhw_W = r.hhw_W := rfl
  have e6 : (phase6ScalarRow chl cop r).chw_W = r.chw_W := rfl
  refine ⟨?_, ?_, ?_, ?_⟩
  · rw [e1]
    exact h1
  · rw [e2]
  · rw [e3, e1, e5]
    exact hb1
  · rw [e4, e2, e6]
    simp only [servedC, hchn, Option.getD_none] at hb2
    linarith

theorem phase6CurveRow_inv (copF : ℚ → ℚ) (r : SiteRow)
    (hInv : Inv r) (hchn : r.chiller_chw_W = none) :
    Inv (phase6CurveRow copF r) := by
  obtain ⟨h1, h2, hb1, hb2⟩ := hInv
  have e1 : (phase6CurveRow copF r).hhw_rem_W = r.hhw_rem_W := rfl
  have e2 : (phase6CurveRow copF r).chw_rem_W = 0 := rfl
  have e3 : servedH (phase6CurveRow copF r) = servedH r := rfl
  have e4 : servedC (phase6CurveRow copF r) =
      r.hr_chw_W.getD 0 + r.awhp_chw_W.getD 0 + r.chw_rem_W := rfl
  have e5 : (phase6CurveRow copF r).hhw_W = r.hhw_W := rfl
  have e6 : (phase6CurveRow copF r).chw_W = r.chw_W := rfl
  refine ⟨?_, ?_, ?_, ?_⟩
  · rw [e1]
    exact h1
  · rw [e2]
  · rw [e3, e1, e5]
    exact hb1
  · rw [e4, e2, e6]
    simp only [servedC, hchn, Option.getD_none] at hb2
    linarith

/-- C1 counterexample: a single hour with 1e-10 W of heating and cooling
demand and a scenario with no equipment completes, but both remainders
survive as 1e-10, not zero — phase 4 fires only when some hour exceeds
1e-9 W and phase 6 only when the cooling remainder sum exceeds 1e-9 W. -/
theorem c1_tiny_remainders_survive :
    (loads_to_site_energy
        [{ t_out_C := 20, heating_W := 1e-10, cooling_W := 1e-10 }] demoLib
        ["s_empty"]).map
      (fun rows => rows.map (fun r => (r.hhw_rem_W, r.chw_rem_W))) =
      .ok [((1e-10 : ℚ), (1e-10 : ℚ))] ∧
    ¬ ((1e-10 : ℚ) = 0) := by
  exact ⟨by decide, by decide⟩

/-- C1 amended: for loads with nonnegative demands and physically sane
equipment data (nonnegative part-load capacities with heating COPs above
one for the heat-recovery unit), a successful single-scenario dispatch
leaves both remainders in [0, 1e-9] for every hour — not exactly zero —
and served-plus-remainder matches the original demand within 3/10000 W
(exactly, except for the df.round(4) applied on the chiller scalar
path). -/
theorem c1_remainders_bounded_and_balance
    (load : List LoadRow) (lib : EquipmentLibrary) (id : String)
    (scen : EquipmentScenario) (rows : List SiteRow)
    (hload : ∀ lr ∈ load, 0 ≤ lr.heating_W ∧ 0 ≤ lr.cooling_W)
    (hgs : lib.get_scenario id = some scen)
    (hdata : ScenDataOk lib scen)
    (hok : loads_to_site_energy load lib [id] = .ok rows) :
    ∀ r ∈ rows, (0 ≤ r.hhw_rem_W ∧ r.hhw_rem_W ≤ 1e-9) ∧
      (0 ≤ r.chw_rem_W ∧ r.chw_rem_W ≤ 1e-9) ∧
      |servedH r + r.hhw_rem_W - r.hhw_W| ≤ 3/10000 ∧
      |servedC r + r.chw_rem_W - r.chw_W| ≤ 3/10000 := by
  obtain ⟨chl', early, hds⟩ := loads_single_shape hok
  obtain ⟨scen0, rows1, rows2, num, rows3, rows5, rows6, hgs0, hp1, hp2, hp3,
    hp5, hp6, hout⟩ := dispatch_scenario_ok_shape hds
  rw [hgs] at hgs0
  injection hgs0 with hgs0
  subst hgs0
  have hall0 : ∀ r ∈ load.map initRow, Inv r ∧ r.hr_hhw_W = none ∧
      r.hr_chw_W = none ∧ r.awhp_hhw_W = none ∧ r.boiler_hhw_W = none ∧
      r.res_hhw_W = none ∧ r.awhp_chw_W = none ∧ r.chiller_chw_W = none := by
    intro r hrm
    rcases List.mem_map.mp hrm with ⟨lr, hlr, rfl⟩
    exact ⟨initRow_inv lr (hload lr hlr).1 (hload lr hlr).2,
      rfl, rfl, rfl, rfl, rfl, rfl, rfl⟩
  have hall1 : ∀ r ∈ rows1, Inv r ∧ r.awhp_hhw_W = none ∧
      r.boiler_hhw_W = none ∧ r.res_hhw_W = none ∧ r.awhp_chw_W = none ∧
      r.chiller_chw_W = none := by
    rcases phase1_ok_shape hp1 with ⟨_, he⟩ |
      ⟨hre, plr, _, hge2, hplr2, hplrne, he⟩
    · subst he
      intro r hrm
      obtain ⟨hi, _, _, h3, h4, h5, h6, h7⟩ := hall0 r hrm
      exact ⟨hi, h3, h4, h5, h6, h7⟩
    · subst he
      have hplrof : hrPlrOf lib scen = plr := by
        unfold hrPlrOf
        rw [hge2]
        show (match _heat_recovery_plr_curve hre with
          | .ok plr => plr
          | .error _ => ([] : Curve)) = plr
        rw [hplr2]
      have hplrdata : ∀ p ∈ plr, 0 ≤ p.1 ∧ 1 < p.2 := by
        rw [← hplrof]
        exact hdata.1
      intro r hrm
      rcases List.mem_map.mp hrm with ⟨r0, hr0, rfl⟩
      obtain ⟨hi, hn1, hn2, h3, h4, h5, h6, h7⟩ := hall0 r0 hr0
      exact ⟨phase1Row_inv hre plr r0 hi hn1 hn2 hplrne hplrdata,
        h3, h4, h5, h6, h7⟩
  have hall2 : ∀ r ∈ rows2, Inv r ∧ r.boiler_hhw_W = none ∧
      r.res_hhw_W = none ∧ r.awhp_chw_W = none ∧
      r.chiller_chw_W = none := by
    rcases phase2_ok_shape hp2 with ⟨_, he, _⟩ |
      ⟨aw, capF, copF, _, _, _, _, _, _, he⟩
    · subst he
      intro r hrm
      obtain ⟨hi, _, h3, h4, h5, h6⟩ := hall1 r hrm
      exact ⟨hi, h3, h4, h5, h6⟩
    · subst he
      intro r hrm
      rcases List.mem_map.mp hrm with ⟨r0, hr0, rfl⟩
      obtain ⟨hi, hn, h3, h4, h5, h6⟩ := hall1 r0 hr0
      exact ⟨phase2Row_inv aw capF copF num r0 hi hn, h3, h4, h5, h6⟩
  have hall3 : ∀ r ∈ rows3, Inv r ∧ r.res_hhw_W = none ∧
      r.awhp_chw_W = none ∧ r.chiller_chw_W = none := by
    rcases phase3_ok_shape hp3 with ⟨_, he⟩ | ⟨blr, eff, _, _, _, _, he⟩
    · subst he
      intro r hrm
      obtain ⟨hi, _, h3, h4, h5⟩ := hall2 r hrm
      exact ⟨hi, h3, h4, h5⟩
    · subst he
      intro r hrm
      rcases List.mem_map.mp hrm with ⟨r0, hr0, rfl⟩
      obtain ⟨hi, hn, h3, h4, h5⟩ := hall2 r0 hr0
      exact ⟨phase3Row_inv eff r0 hi hn, h3, h4, h5⟩
  have hall4 : ∀ r ∈ phase4 rows3, Inv r ∧ r.hhw_rem_W ≤ 1e-9 ∧
      r.awhp_chw_W = none ∧ r.chiller_chw_W = none := by
    rcases phase4_shape rows3 with ⟨hany, he⟩ | ⟨hany, he⟩ <;> rw [he]
    · intro r hrm
      rcases List.mem_map.mp hrm with ⟨r0, hr0, rfl⟩
      obtain ⟨hi, hn, h4, h5⟩ := hall3 r0 hr0
      refine ⟨phase4Row_inv r0 hi hn, ?_, h4, h5⟩
      show (0 : ℚ) ≤ 1e-9
      decide
    · intro r hrm
      obtain ⟨hi, hn, h4, h5⟩ := hall3 r hrm
      refine ⟨hi, ?_, h4, h5⟩
      simp only [List.any_eq_false, decide_eq_true_eq] at hany
      exact not_lt.mp (hany r hrm)
  have hall5 : ∀ r ∈ rows5, Inv r ∧ r.hhw_rem_W ≤ 1e-9 ∧
      r.chiller_chw_W = none := by
    rcases phase5_ok_shape hp5 with ⟨_, he⟩ |
      ⟨awc, capF, copF, _, _, _, _, _, he⟩
    · subst he
      intro r hrm
      obtain ⟨hi, hle, _, h5⟩ := hall4 r hrm
      exact ⟨hi, hle, h5⟩
    · subst he
      intro r hrm
      rcases List.mem_map.mp hrm with ⟨r0, hr0, rfl⟩
      obtain ⟨hi, hle, hn, h5⟩ := hall4 r0 hr0
      exact ⟨phase5Row_inv capF copF num r0 hi hn, hle, h5⟩
  have hfinal : ∀ r ∈ rows6, (0 ≤ r.hhw_rem_W ∧ r.hhw_rem_W ≤ 1e-9) ∧
      (0 ≤ r.chw_rem_W ∧ r.chw_rem_W ≤ 1e-9) ∧
      |servedH r + r.hhw_rem_W - r.hhw_W| ≤ 3/10000 ∧
      |servedC r + r.chw_rem_W - r.chw_W| ≤ 3/10000 := by
    rcases phase6_ok_shape hp6 with ⟨hsum, he, _, _⟩ |
      ⟨hsum, chl, copF, _, _, he⟩ | ⟨hsum, chl, cop, _, _, _, he⟩
    · subst he
      intro r hrm
      obtain ⟨⟨hi1, hi2, hib1, hib2⟩, hle, _⟩ := hall5 r hrm
      have hchw : r.chw_rem_W ≤ 1e-9 := by
        refine le_trans
          (List.single_le_sum ?_ _ (List.mem_map_of_mem _ hrm))
          (not_lt.mp hsum)
        intro y hy
        rcases List.mem_map.mp hy with ⟨r2, hr2, rfl⟩
        exact (hall5 r2 hr2).1.2.1
      refine ⟨⟨hi1, hle⟩, ⟨hi2, hchw⟩, ?_, ?_⟩
      · have h0 : servedH r + r.hhw_rem_W - r.hhw_W = 0 := by linarith
        rw [h0, abs_zero]
        norm_num
      · have h0 : servedC r + r.chw_rem_W - r.chw_W = 0 := by linarith
        rw [h0, abs_zero]
        norm_num
    · subst he
      intro r hrm
      rcases List.mem_map.mp hrm with ⟨r0, hr0, rfl⟩
      obtain ⟨hi, hle, hn⟩ := hall5 r0 hr0
      obtain ⟨hj1, hj2, hjb1, hjb2⟩ := phase6CurveRow_inv copF r0 hi hn
      refine ⟨⟨hj1, ?_⟩, ⟨hj2, ?_⟩, ?_, ?_⟩
      · exact hle
      · show (0 : ℚ) ≤ 1e-9
        decide
      · have h0 : servedH (phase6CurveRow copF r0) +
            (phase6CurveRow copF r0).hhw_rem_W -
            (phase6CurveRow copF r0).hhw_W = 0 := by linarith
        rw [h0, abs_zero]
        norm_num
      · have h0 : servedC (phase6CurveRow copF r0) +
            (phase6CurveRow copF r0).chw_rem_W -
            (phase6CurveRow copF r0).chw_W = 0 := by linarith
        rw [h0, abs_zero]
        norm_num
    · subst he
      intro r hrm
      rcases List.mem_map.mp hrm with ⟨r1, hr1, rfl⟩
      rcases List.mem_map.mp hr1 with ⟨r0, hr0, rfl⟩
      obtain ⟨hi, hle, hn⟩ := hall5 r0 hr0
      obtain ⟨hj1, hj2, hjb1, hjb2⟩ := phase6ScalarRow_inv chl cop r0 hi hn
      have hround0 : round4 (phase6ScalarRow chl cop r0).hhw_rem_W = 0 :=
        round4_small _ hj1 hle
      have hRem : (roundRow4 (phase6ScalarRow chl cop r0)).hhw_rem_W =
          round4 (phase6ScalarRow chl cop r0).hhw_rem_W := rfl
      have hRemC : (roundRow4 (phase6ScalarRow chl cop r0)).chw_rem_W =
          round4 0 := rfl
      refine ⟨?_, ?_, ?_, ?_⟩
      · rw [hRem, hround0]
        exact ⟨le_refl 0, by decide⟩
      · rw [hRemC, round4_zero]
        exact ⟨le_refl 0, by decide⟩
      · have hsH : servedH (roundRow4 (phase6ScalarRow chl cop r0)) =
            (round4O (phase6ScalarRow chl cop r0).hr_hhw_W).getD 0 +
            (round4O (phase6ScalarRow chl cop r0).awhp_hhw_W).getD 0 +
            (round4O (phase6ScalarRow chl cop r0).boiler_hhw_W).getD 0 +
            (round4O (phase6ScalarRow chl cop r0).res_hhw_W).getD 0 := rfl
        have hsvS : servedH (phase6ScalarRow chl cop r0) =
            (phase6ScalarRow chl cop r0).hr_hhw_W.getD 0 +
            (phase6ScalarRow chl cop r0).awhp_hhw_W.getD 0 +
            (phase6ScalarRow chl cop r0).boiler_hhw_W.getD 0 +
            (phase6ScalarRow chl cop r0).res_hhw_W.getD 0 := rfl
        have hW : (roundRow4 (phase6ScalarRow chl cop r0)).hhw_W =
            round4 (phase6ScalarRow chl cop r0).hhw_W := rfl
        have d1 := getD_round4O_close (phase6ScalarRow chl cop r0).hr_hhw_W
        have d2 := getD_round4O_close (phase6ScalarRow chl cop r0).awhp_hhw_W
        have d3 := getD_round4O_close (phase6ScalarRow chl cop r0).boiler_hhw_W
        have d4 := getD_round4O_close (phase6ScalarRow chl cop r0).res_hhw_W
        have d5 := round4_close (phase6ScalarRow chl cop r0).hhw_rem_W
        have d6 := round4_close (phase6ScalarRow chl cop r0).hhw_W
        rw [hsvS] at hjb1
        rw [hsH, hRem, hW]
        rw [abs_le] at d1 d2 d3 d4 d5 d6
        rw [abs_le]
        constructor <;>
          linarith [d1.1, d1.2, d2.1, d2.2, d3.1, d3.2, d4.1, d4.2, d5.1,
            d5.2, d6.1, d6.2]
      · have hsC : servedC (roundRow4 (phase6ScalarRow chl cop r0)) =
            (round4O (phase6ScalarRow chl cop r0).hr_chw_W).getD 0 +
            (round4O (phase6ScalarRow chl cop r0).awhp_chw_W).getD 0 +
            (round4O (phase6ScalarRow chl cop r0).chiller_chw_W).getD 0 := rfl
        have hsvC : servedC (phase6ScalarRow chl cop r0) =
            (phase6ScalarRow chl cop r0).hr_chw_W.getD 0 +
            (phase6ScalarRow chl cop r0).awhp_chw_W.getD 0 +
            (phase6ScalarRow chl cop r0).chiller_chw_W.getD 0 := rfl
        have hWC : (roundRow4 (phase6ScalarRow chl cop r0)).chw_W =
            round4 (phase6ScalarRow chl cop r0).chw_W := rfl
        have hs_chw : (phase6ScalarRow chl cop r0).chw_rem_W = 0 := rfl
        have d1 := getD_round4O_close (phase6ScalarRow chl cop r0).hr_chw_W
        have d2 := getD_round4O_close (phase6ScalarRow chl cop r0).awhp_chw_W
        have d3 := getD_round4O_close
          (phase6ScalarRow chl cop r0).chiller_chw_W
        have d6 := round4_close (phase6ScalarRow chl cop r0).chw_W
        rw [hsvC] at hjb2
        rw [hs_chw] at hjb2
        rw [hsC, hRemC, round4_zero, hWC]
        rw [abs_le] at d1 d2 d3 d6
        rw [abs_le]
        constructor <;>
          linarith [d1.1, d1.2, d2.1, d2.2, d3.1, d3.2, d6.1, d6.2]
  rcases hout with ⟨_, hoe⟩ | ⟨_, hoe⟩ <;> subst hoe
  · exact hfinal
  · intro r hrm
    rcases List.mem_map.mp hrm with ⟨r6, hr6, rfl⟩
    exact hfinal r6 hr6

/-- Witness for C1 at the concrete fixtures: scenario s_full (HR WWHP,
AWHP and data-less chiller) on one hour of 10000 W heating and 4000 W
cooling; the call succeeds and every output row satisfies the amended
remainder bounds and balances. -/
theorem c1_remainders_bounded_and_balance_witness :
    ∃ rows, loads_to_site_energy loadBoth demoLib ["s_full"] = .ok rows ∧
      ∀ r ∈ rows, (0 ≤ r.hhw_rem_W ∧ r.hhw_rem_W ≤ 1e-9) ∧
        (0 ≤ r.chw_rem_W ∧ r.chw_rem_W ≤ 1e-9) ∧
        |servedH r + r.hhw_rem_W - r.hhw_W| ≤ 3/10000 ∧
        |servedC r + r.chw_rem_W - r.chw_W| ≤ 3/10000 := by
  rcases hres : loads_to_site_energy loadBoth demoLib ["s_full"] with e | rows
  · have hok : exceptIsOk (loads_to_site_energy loadBoth demoLib ["s_full"]) =
        true := by decide
    rw [hres] at hok
    simp [exceptIsOk] at hok
  · refine ⟨rows, rfl, ?_⟩
    exact c1_remainders_bounded_and_balance loadBoth demoLib "s_full" scenFull
      rows (by decide) (by decide)
      ⟨by decide, show EquipCapNonneg awhpEq by
        unfold EquipCapNonneg
        decide⟩ hres

/-! ## Claim C4: batch dispatch versus single-scenario dispatch -/

/-- Rebuild one scenario iteration from its phase results. -/
theorem dispatch_scenario_build {load : List LoadRow} {lib : EquipmentLibrary}
    {id : String} {scen : EquipmentScenario} {chl0 : Option Equipment}
    {rows1 : List SiteRow} {p2 : List SiteRow × ℚ} {rows3 rows5 rows6 : List SiteRow}
    {c : Option Equipment}
    (hgs : lib.get_scenario id = some scen)
    (h1 : phase1 lib scen (load.map initRow) = .ok rows1)
    (h2 : phase2 lib scen rows1 = .ok p2)
    (h3 : phase3 lib scen p2.1 = .ok rows3)
    (h5 : phase5 lib scen (phase4 rows3) p2.2 = .ok rows5)
    (h6 : phase6 lib scen rows5 chl0 = .ok (rows6, c, false)) :
    dispatch_scenario load lib id chl0 =
      .ok (rows6.map (tagRow id scen.eq_scen_name), c, false) := by
  unfold dispatch_scenario
  split
  · rename_i hn
    rw [hgs] at hn
    cases hn
  · rename_i scen2 hs
    rw [hgs] at hs
    injection hs with hs
    subst hs
    rw [h1]
    simp only [except_bind_ok]
    rw [h2]
    simp only [except_bind_ok]
    rw [h3]
    simp only [except_bind_ok]
    rw [h5]
    simp only [except_bind_ok]
    rw [h6]
    rfl

/-- If a single-scenario run succeeds without the chiller COP-curve early
return, the rows it produces do not depend on the leaked Python local `chl`
of earlier iterations: its phase 6 either skipped or configured its own
chiller. -/
theorem dispatch_scenario_chl_insensitive {load : List LoadRow}
    {lib : EquipmentLibrary} {id : String} {out : List SiteRow}
    {c : Option Equipment}
    (h : dispatch_scenario load lib id none = .ok (out, c, false))
    (chl0 : Option Equipment) :
    ∃ c', dispatch_scenario load lib id chl0 = .ok (out, c', false) := by
  obtain ⟨scen, rows1, rows2, num, rows3, rows5, rows6, hgs, h1, h2, h3, h5,
    h6, hout⟩ := dispatch_scenario_ok_shape h
  rcases hout with ⟨hfe, _⟩ | ⟨_, hoe⟩
  · exact absurd hfe (by decide)
  · have h6' : ∃ c', phase6 lib scen rows5 chl0 = .ok (rows6, c', false) := by
      unfold phase6 at h6
      by_cases hsum : ¬ ((1e-9 : ℚ) < (rows5.map (fun r => r.chw_rem_W)).sum)
      · rw [if_pos hsum] at h6
        injection h6 with h6
        have hr6 : rows5 = rows6 := congrArg (fun t => t.1) h6
        refine ⟨chl0, ?_⟩
        unfold phase6
        rw [if_pos hsum, hr6]
      · rw [if_neg hsum] at h6
        by_cases htr : optStrTruthy scen.chiller = true
        · rw [if_pos htr] at h6
          refine ⟨c, ?_⟩
          unfold phase6
          rw [if_neg hsum, if_pos htr]
          exact h6
        · rw [if_neg htr] at h6
          have h6b : (Except.error
              "UnboundLocalError: chl referenced before assignment" :
              Except String (List SiteRow × Option Equipment × Bool)) =
              .ok (rows6, c, false) := h6
          cases h6b
    obtain ⟨c', hp6'⟩ := h6'
    refine ⟨c', ?_⟩
    have h3b : phase3 lib scen ((rows2, num) : List SiteRow × ℚ).1 =
        .ok rows3 := h3
    have h5b : phase5 lib scen (phase4 rows3)
        ((rows2, num) : List SiteRow × ℚ).2 = .ok rows5 := h5
    rw [hoe]
    exact dispatch_scenario_build hgs h1 h2 h3b h5b hp6'

/-- A true dispatchOkNotEarly check certifies the single-scenario run
succeeded without early return and identifies its rows with rowsOf. -/
theorem dispatchOkNotEarly_spec {load : List LoadRow}
    {lib : EquipmentLibrary} {id : String}
    (h : dispatchOkNotEarly load lib id = true) :
    ∃ c, dispatch_scenario load lib id none =
      .ok (rowsOf load lib id, c, false) := by
  unfold dispatchOkNotEarly at h
  rcases hd : dispatch_scenario load lib id none with e | ⟨out, c, early⟩
  · rw [hd] at h
    have h2 : false = true := h
    exact absurd h2 (by decide)
  · rw [hd] at h
    cases early with
    | true =>
      have h2 : false = true := h
      exact absurd h2 (by decide)
    | false =>
      refine ⟨c, ?_⟩
      unfold rowsOf
      rw [hd]

/-- The scenario loop concatenates the per-scenario rows when no iteration
takes the early return. -/
theorem dispatch_go_concat (load : List LoadRow) (lib : EquipmentLibrary) :
    ∀ (ids : List String) (chl0 : Option Equipment) (acc : List SiteRow),
    (∀ id ∈ ids, dispatchOkNotEarly load lib id = true) →
    dispatch_go load lib ids chl0 acc =
      .ok (acc ++ (ids.map (rowsOf load lib)).flatten)
  | [], chl0, acc, _ => by
    show Except.ok acc = _
    rw [List.map_nil, List.flatten_nil, List.append_nil]
  | id :: rest, chl0, acc, hall => by
    obtain ⟨c, hds⟩ :=
      dispatchOkNotEarly_spec (hall id (List.mem_cons_self id rest))
    obtain ⟨c', hds'⟩ := dispatch_scenario_chl_insensitive hds chl0
    unfold dispatch_go
    rw [hds']
    show dispatch_go load lib rest c' (acc ++ rowsOf load lib id) = _
    rw [dispatch_go_concat load lib rest c' (acc ++ rowsOf load lib id)
      (fun i hi => hall i (List.mem_cons_of_mem id hi))]
    rw [List.map_cons, List.flatten_cons, List.append_assoc]

/-- C4 counterexample: with one hour of 10 W cooling, dispatching
[s_chl_nodata, s_chl_curve] in one call returns a single untagged row —
the chiller COP-curve branch's early return discards the
already-accumulated first scenario and skips the tagging — although each
single-scenario call returns one row (s_chl_nodata's tagged); and
dispatching [s_chl_nodata, s_empty] succeeds with s_empty served by the
previous iteration's leaked chiller local, although the single-scenario
call on s_empty raises UnboundLocalError.  Batch results are neither the
concatenation of single-scenario results nor tagged, and scenarios
interact. -/
theorem c4_early_return_and_chl_leak :
    (loads_to_site_energy loadCool demoLib ["s_chl_nodata", "s_chl_curve"]).map
      (fun rows => (rows.length, rows.map (fun r => r.eq_scen_id))) =
      .ok (1, [none]) ∧
    (loads_to_site_energy loadCool demoLib ["s_chl_nodata"]).map
      (fun rows => (rows.length, rows.map (fun r => r.eq_scen_id))) =
      .ok (1, [some "s_chl_nodata"]) ∧
    (loads_to_site_energy loadCool demoLib ["s_chl_curve"]).map
      (fun rows => rows.length) = .ok 1 ∧
    (loads_to_site_energy loadCool demoLib ["s_chl_nodata", "s_empty"]).map
      (fun rows => rows.map (fun r => (r.eq_scen_id, r.chiller_refrigerant))) =
      .ok [(some "s_chl_nodata", some "Unknown"),
           (some "s_empty", some "Unknown")] ∧
    loads_to_site_energy loadCool demoLib ["s_empty"] =
      .error "UnboundLocalError: chl referenced before assignment" := by
  exact ⟨by decide, by decide, by decide, by decide, by decide⟩

/-- C4 amended: whenever every listed scenario's own single-scenario run
succeeds without the chiller COP-curve early return, the batch call
returns exactly the concatenation of the per-scenario row lists, each
single-scenario call returns its own rows, and every row is tagged with
its scenario id and scenario name.  (Without that proviso the claim fails:
see the counterexample.) -/
theorem c4_batch_is_tagged_concat_of_singles
    (load : List LoadRow) (lib : EquipmentLibrary) (ids : List String)
    (hne : ids ≠ [])
    (hall : ∀ id ∈ ids, dispatchOkNotEarly load lib id = true) :
    loads_to_site_energy load lib ids =
      .ok ((ids.map (rowsOf load lib)).flatten) ∧
    (∀ id ∈ ids, loads_to_site_energy load lib [id] =
      .ok (rowsOf load lib id)) ∧
    (∀ id ∈ ids, ∃ scen, lib.get_scenario id = some scen ∧
      ∀ r ∈ rowsOf load lib id, r.eq_scen_id = some id ∧
        r.eq_scen_name = some scen.eq_scen_name) := by
  refine ⟨?_, ?_, ?_⟩
  · unfold loads_to_site_energy
    rcases ids with _ | ⟨a, t⟩
    · exact absurd rfl hne
    · rw [if_neg (by simp)]
      rw [dispatch_go_concat load lib (a :: t) none [] hall]
      rw [List.nil_append]
  · intro id hid
    obtain ⟨c, hds⟩ := dispatchOkNotEarly_spec (hall id hid)
    exact loads_single_eval hds
  · intro id hid
    obtain ⟨c, hds⟩ := dispatchOkNotEarly_spec (hall id hid)
    obtain ⟨scen0, rows1, rows2, num, rows3, rows5, rows6, hgs, h1, h2, h3,
      h5, h6, hout⟩ := dispatch_scenario_ok_shape hds
    refine ⟨scen0, hgs, ?_⟩
    rcases hout with ⟨hfe, _⟩ | ⟨_, hoe⟩
    · exact absurd hfe (by decide)
    · rw [hoe]
      intro r hrm
      rcases List.mem_map.mp hrm with ⟨r6, _, rfl⟩
      exact ⟨rfl, rfl⟩

/-- Witness for C4 at the concrete fixtures: the heating-only load on
[s_boiler, s_empty] (neither takes the early return); the batch equals the
flattened per-scenario rows, singles agree, and all rows are tagged. -/
theorem c4_batch_is_tagged_concat_of_singles_witness :
    loads_to_site_energy loadHeat demoLib ["s_boiler", "s_empty"] =
      .ok ((["s_boiler", "s_empty"].map (rowsOf loadHeat demoLib)).flatten) ∧
    (∀ id ∈ ["s_boiler", "s_empty"],
      loads_to_site_energy loadHeat demoLib [id] =
        .ok (rowsOf loadHeat demoLib id)) ∧
    (∀ id ∈ ["s_boiler", "s_empty"], ∃ scen,
      demoLib.get_scenario id = some scen ∧
      ∀ r ∈ rowsOf loadHeat demoLib id, r.eq_scen_id = some id ∧
        r.eq_scen_name = some scen.eq_scen_name) :=
  c4_batch_is_tagged_concat_of_singles loadHeat demoLib
    ["s_boiler", "s_empty"] (by decide) (by decide)

end Decarb
